import Mathlib

/-!
Boot-target decision logic of efilinux (bootlogic.c).

A shallow embedding of `src/efilinux/bootlogic.c`: the wake-path and reset-path
rule chains, the watchdog fallback policy, the resolver `target_from_inputs`
and the orchestrator `start_boot_logic`.

The C code talks to the hardware through the global function table
`loader_ops`.  Here the platform behind that table is an explicit record
(`platform`) that is threaded through every function; each call through
`loader_ops` appends one entry to `platform.calls`, so that "is invoked",
"is not invoked" and "is invoked before" are statements about that list.
-/

namespace Efilinux

/-! ## Data model -/

/-- Modelled from the spec: `enum targets` is declared in bootlogic.h, which is
not part of the sources at hand.  The enumerators are the ones named in
bootlogic.c (`target_strings`, `fallback_target`) and listed in section 3 of
the spec. -/
inductive targets where
  | TARGET_BOOT
  | TARGET_RECOVERY
  | TARGET_FASTBOOT
  | TARGET_TEST
  | TARGET_COLD_OFF
  | TARGET_CHARGING
  | TARGET_DNX
  | TARGET_UNKNOWN
  deriving DecidableEq, Repr, Fintype

/-- Modelled from the spec: `enum wake_sources` is declared in a header that is
not part of the sources at hand.  The spec says its values "include"
power-button-pressed, USB-charger-inserted, AC/DC-charger-inserted,
not-applicable and error; every further enumerator of the header, none of
which bootlogic.c names, is carried by `WAKE_OTHER` with its numeric code. -/
inductive wake_sources where
  | WAKE_NOT_APPLICABLE
  | WAKE_POWER_BUTTON_PRESSED
  | WAKE_USB_CHARGER_INSERTED
  | WAKE_ACDC_CHARGER_INSERTED
  | WAKE_ERROR
  | WAKE_OTHER (code : Nat)
  deriving DecidableEq, Repr

/-- Modelled from the spec: `enum reset_sources` is declared in a header that
is not part of the sources at hand.  The enumerators are the eleven values of
section 3 of the spec, all of which bootlogic.c names. -/
inductive reset_sources where
  | RESET_NOT_APPLICABLE
  | RESET_OS_INITIATED
  | RESET_FORCED
  | RESET_FW_UPDATE
  | RESET_KERNEL_WATCHDOG
  | RESET_SECURITY_WATCHDOG
  | RESET_SECURITY_INITIATED
  | RESET_PMC_WATCHDOG
  | RESET_EC_WATCHDOG
  | RESET_PLATFORM_WATCHDOG
  | RESET_ERROR
  deriving DecidableEq, Repr, Fintype

/-- Modelled from the spec: `enum shutdown_sources` is declared in a header
that is not part of the sources at hand.  bootlogic.c names only
`SHTDWN_POWER_BUTTON_OVERRIDE`; every other enumerator is carried by
`SHTDWN_OTHER` with its numeric code. -/
inductive shutdown_sources where
  | SHTDWN_POWER_BUTTON_OVERRIDE
  | SHTDWN_OTHER (code : Nat)
  deriving DecidableEq, Repr

/-- Modelled from the spec: `enum batt_levels` is declared in em.h, which is
not part of the sources at hand.  The enumerators are the four values of
section 3 of the spec, which are the four `case` labels of bootlogic.c. -/
inductive batt_levels where
  | BATT_ERROR
  | BATT_BOOT_OS
  | BATT_BOOT_CHARGING
  | BATT_LOW
  deriving DecidableEq, Repr, Fintype

/-- The opaque flow descriptor returned by `read_flow_type`; bootlogic.c never
inspects it. -/
abbrev flow_types := Nat

/-- An `EFI_STATUS` is a `UINTN`; on x64 that is a 64-bit unsigned value. -/
abbrev EFI_STATUS := Nat

/-- The status `EFI_SUCCESS` of efi.h. -/
def EFI_SUCCESS : EFI_STATUS := 0

/-- The macro `EFI_ERROR(a)` of efi.h, `((INTN) a) < 0`: the top bit of the
64-bit status is set. -/
def EFI_ERROR (a : EFI_STATUS) : Bool := decide (2 ^ 63 ≤ a % 2 ^ 64)

/-- A `CHAR8 *` command line: `none` is the NULL pointer. -/
abbrev cmdline_t := Option String

/-- One call through the function table `loader_ops` (or its `em_ops`), with
the arguments that were passed. -/
inductive op_call where
  | hook_bootlogic_begin
  | check_partition_table
  | read_flow_type
  | is_battery_ok
  | get_wake_source
  | get_reset_source
  | get_shutdown_source
  | combo_key
  | get_battery_level
  | get_target_mode
  | get_wdt_counter
  | set_wdt_counter (counter : Int)
  | set_rtc_alarm_charging (val : Int)
  | do_cold_off
  | display_splash
  | populate_indicators
  | save_target_mode (target : targets)
  | get_extra_cmdline
  | hook_bootlogic_end
  | load_target (target : targets) (cmdline : cmdline_t)
  deriving DecidableEq, Repr

/-- Modelled from the spec: the platform behind `loader_ops` (section 6 of the
spec, "Platform Operations Interface"); `struct osloader_ops` and the functions
that x86.c stores in it are not part of the sources at hand, except
`get_entry_oneshot` and `set_entry_last`.

* the signal fields are what the read-only queries answer;
* `target_mode`, `wdt_counter` and `rtc_alarm_charging` are the persistent boot
  state: `get_target_mode` reads `target_mode`, `get_wdt_counter` and
  `set_wdt_counter` read and write `wdt_counter` (a C `int`, so a value of
  `INT_MIN .. INT_MAX`; the increment of bootlogic.c wraps, see `int_wrap`),
  `set_rtc_alarm_charging` writes `rtc_alarm_charging`;
* `saved_target_mode` is the last target handed to a successful
  `save_target_mode`; whether `get_target_mode` reads the same storage is a
  matter of the platform, so the two fields are kept apart;
* the status fields are what the fallible calls return; `cold_off_returns`
  tells whether `do_cold_off` hands control back, and `load_status` answers
  `none` when `load_target` starts the image and never returns;
* `calls` is the list of calls made so far, oldest first. -/
structure platform where
  battery_ok : Bool
  battery_level : batt_levels
  wake_source : wake_sources
  reset_source : reset_sources
  shutdown_source : shutdown_sources
  combo_fastboot : Bool
  flow_type : flow_types
  partition_table_status : EFI_STATUS
  indicators_status : EFI_STATUS
  save_status : targets → EFI_STATUS
  cold_off_returns : Bool
  load_status : targets → cmdline_t → Option EFI_STATUS
  extra_cmdline : cmdline_t
  target_mode : targets
  wdt_counter : Int
  rtc_alarm_charging : Int
  saved_target_mode : Option targets
  calls : List op_call

/-- Record one call in the call list. -/
def platform.log (s : platform) (c : op_call) : platform :=
  { s with calls := s.calls ++ [c] }

/-! ## The function table `loader_ops` -/

namespace loader_ops

/-- The call `loader_ops.hook_bootlogic_begin()`. -/
def hook_bootlogic_begin (s : platform) : platform :=
  s.log .hook_bootlogic_begin

/-- The call `loader_ops.hook_bootlogic_end()`. -/
def hook_bootlogic_end (s : platform) : platform :=
  s.log .hook_bootlogic_end

/-- The call `loader_ops.check_partition_table()`. -/
def check_partition_table (s : platform) : EFI_STATUS × platform :=
  (s.partition_table_status, s.log .check_partition_table)

/-- The call `loader_ops.read_flow_type()`. -/
def read_flow_type (s : platform) : flow_types × platform :=
  (s.flow_type, s.log .read_flow_type)

/-- The call `loader_ops.em_ops->is_battery_ok()`. -/
def is_battery_ok (s : platform) : Bool × platform :=
  (s.battery_ok, s.log .is_battery_ok)

/-- The call `loader_ops.em_ops->get_battery_level()`. -/
def get_battery_level (s : platform) : batt_levels × platform :=
  (s.battery_level, s.log .get_battery_level)

/-- The call `loader_ops.get_wake_source()`. -/
def get_wake_source (s : platform) : wake_sources × platform :=
  (s.wake_source, s.log .get_wake_source)

/-- The call `loader_ops.get_reset_source()`. -/
def get_reset_source (s : platform) : reset_sources × platform :=
  (s.reset_source, s.log .get_reset_source)

/-- The call `loader_ops.get_shutdown_source()`. -/
def get_shutdown_source (s : platform) : shutdown_sources × platform :=
  (s.shutdown_source, s.log .get_shutdown_source)

/-- The call `loader_ops.combo_key(COMBO_FASTBOOT_MODE)`. -/
def combo_key (s : platform) : Bool × platform :=
  (s.combo_fastboot, s.log .combo_key)

/-- The call `loader_ops.get_target_mode()`. -/
def get_target_mode (s : platform) : targets × platform :=
  (s.target_mode, s.log .get_target_mode)

/-- The call `loader_ops.get_wdt_counter()`. -/
def get_wdt_counter (s : platform) : Int × platform :=
  (s.wdt_counter, s.log .get_wdt_counter)

/-- The call `loader_ops.set_wdt_counter(counter)`. -/
def set_wdt_counter (counter : Int) (s : platform) : platform :=
  { s with wdt_counter := counter, calls := s.calls ++ [.set_wdt_counter counter] }

/-- The call `loader_ops.set_rtc_alarm_charging(val)`. -/
def set_rtc_alarm_charging (val : Int) (s : platform) : platform :=
  { s with rtc_alarm_charging := val, calls := s.calls ++ [.set_rtc_alarm_charging val] }

/-- The call `loader_ops.do_cold_off()`: the flag tells whether it returned. -/
def do_cold_off (s : platform) : Bool × platform :=
  (s.cold_off_returns, s.log .do_cold_off)

/-- The call `loader_ops.display_splash()`; bootlogic.c drops its status. -/
def display_splash (s : platform) : platform :=
  s.log .display_splash

/-- The call `loader_ops.populate_indicators()`. -/
def populate_indicators (s : platform) : EFI_STATUS × platform :=
  (s.indicators_status, s.log .populate_indicators)

/-- The call `loader_ops.save_target_mode(target)`: a successful call records
the target as the saved one. -/
def save_target_mode (target : targets) (s : platform) : EFI_STATUS × platform :=
  let s1 := s.log (.save_target_mode target)
  if EFI_ERROR (s.save_status target) then (s.save_status target, s1)
  else (s.save_status target, { s1 with saved_target_mode := some target })

/-- The call `loader_ops.get_extra_cmdline()`. -/
def get_extra_cmdline (s : platform) : cmdline_t × platform :=
  (s.extra_cmdline, s.log .get_extra_cmdline)

/-- The call `loader_ops.load_target(target, cmdline)`: `none` when the image
was started and control never came back. -/
def load_target (target : targets) (cmdline : cmdline_t) (s : platform) :
    Option EFI_STATUS × platform :=
  (s.load_status target cmdline, s.log (.load_target target cmdline))

end loader_ops

open targets wake_sources reset_sources shutdown_sources batt_levels

/-! ## bootlogic.c -/

/-- The function `forced_shutdown` of bootlogic.c. -/
def forced_shutdown (s : platform) : platform :=
  let s := loader_ops.set_rtc_alarm_charging 0 s
  loader_ops.set_wdt_counter 0 s

/-- The function `boot_fastboot_combo` of bootlogic.c.  The four `case` labels
cover `batt_levels`, so the `return TARGET_UNKNOWN` after the `switch` is not
reached. -/
def boot_fastboot_combo (_ws : wake_sources) (s : platform) : targets × platform :=
  let (held, s) := loader_ops.combo_key s
  if !held then (TARGET_UNKNOWN, s)
  else
    let (level, s) := loader_ops.get_battery_level s
    match level with
    | BATT_ERROR => (TARGET_FASTBOOT, s)
    | BATT_BOOT_OS => (TARGET_FASTBOOT, s)
    | BATT_BOOT_CHARGING => (TARGET_FASTBOOT, s)
    | BATT_LOW => (TARGET_COLD_OFF, s)

/-- The function `boot_power_key` of bootlogic.c.  The four `case` labels
cover `batt_levels`, so the `return TARGET_UNKNOWN` after the `switch` is not
reached. -/
def boot_power_key (ws : wake_sources) (s : platform) : targets × platform :=
  if ws ≠ WAKE_POWER_BUTTON_PRESSED then (TARGET_UNKNOWN, s)
  else
    let (level, s) := loader_ops.get_battery_level s
    match level with
    | BATT_ERROR => (TARGET_BOOT, s)
    | BATT_BOOT_OS => (TARGET_BOOT, s)
    | BATT_BOOT_CHARGING => (TARGET_CHARGING, s)
    | BATT_LOW => (TARGET_COLD_OFF, s)

/-- The function `boot_rtc` of bootlogic.c. -/
def boot_rtc (_ws : wake_sources) (s : platform) : targets × platform :=
  (TARGET_UNKNOWN, s)

/-- The function `boot_battery_insertion` of bootlogic.c. -/
def boot_battery_insertion (_ws : wake_sources) (s : platform) : targets × platform :=
  (TARGET_UNKNOWN, s)

/-- The function `boot_charger_insertion` of bootlogic.c. -/
def boot_charger_insertion (ws : wake_sources) (s : platform) : targets × platform :=
  (if ws = WAKE_USB_CHARGER_INSERTED ∨ ws = WAKE_ACDC_CHARGER_INSERTED
    then TARGET_CHARGING else TARGET_UNKNOWN, s)

/-- The loop shared by `target_from_off` and `target_from_reset`:
`for (i = 0; i < n; i++) { target = boot_case[i](x); if (target != TARGET_UNKNOWN) break; }`
with `target` the value held before the remaining iterations. -/
def run_boot_case {α : Type} (boot_case : List (α → platform → targets × platform))
    (x : α) (target : targets) (s : platform) : targets × platform :=
  match boot_case with
  | [] => (target, s)
  | f :: rest =>
    let (target, s) := f x s
    if target ≠ TARGET_UNKNOWN then (target, s)
    else run_boot_case rest x target s

/-- The function `target_from_off` of bootlogic.c. -/
def target_from_off (ws : wake_sources) (s : platform) : targets × platform :=
  let target := TARGET_UNKNOWN
  let (shutdown, s) := loader_ops.get_shutdown_source s
  let s := if shutdown = SHTDWN_POWER_BUTTON_OVERRIDE then forced_shutdown s else s
  let boot_case := [boot_fastboot_combo, boot_power_key, boot_rtc,
    boot_battery_insertion, boot_charger_insertion]
  run_boot_case boot_case ws target s

/-- The function `boot_fw_update` of bootlogic.c. -/
def boot_fw_update (rs : reset_sources) (s : platform) : targets × platform :=
  (if rs = RESET_FW_UPDATE then TARGET_BOOT else TARGET_UNKNOWN, s)

/-- The function `boot_reset` of bootlogic.c. -/
def boot_reset (rs : reset_sources) (s : platform) : targets × platform :=
  if rs = RESET_OS_INITIATED ∨ rs = RESET_FORCED then loader_ops.get_target_mode s
  else (TARGET_UNKNOWN, s)

/-- The function `fallback_target` of bootlogic.c. -/
def fallback_target (target : targets) : targets :=
  match target with
  | TARGET_BOOT => TARGET_RECOVERY
  | TARGET_RECOVERY => TARGET_FASTBOOT
  | TARGET_FASTBOOT => TARGET_DNX
  | _ => TARGET_UNKNOWN

/-- The largest value of a C `int` (32 bits, two's complement). -/
def INT_MAX : Int := 2147483647

/-- The smallest value of a C `int` (32 bits, two's complement). -/
def INT_MIN : Int := -2147483648

/-- An integer brought into the range of a C `int`: the value congruent to `x`
modulo 2^32 that lies in `INT_MIN .. INT_MAX`. -/
def int_wrap (x : Int) : Int :=
  (x + 2147483648) % 4294967296 - 2147483648

/-- The function `boot_watchdog` of bootlogic.c.  The local `wdt_counter` is a
C `int`: `wdt_counter++` wraps from `INT_MAX` to `INT_MIN`. -/
def boot_watchdog (rs : reset_sources) (s : platform) : targets × platform :=
  if rs ≠ RESET_KERNEL_WATCHDOG
      ∧ rs ≠ RESET_SECURITY_WATCHDOG
      ∧ rs ≠ RESET_SECURITY_INITIATED
      ∧ rs ≠ RESET_PMC_WATCHDOG
      ∧ rs ≠ RESET_EC_WATCHDOG
      ∧ rs ≠ RESET_PLATFORM_WATCHDOG then (TARGET_UNKNOWN, s)
  else
    let (wdt_counter, s) := loader_ops.get_wdt_counter s
    let (last_target, s) := loader_ops.get_target_mode s
    let wdt_counter := int_wrap (wdt_counter + 1)
    if wdt_counter ≥ 3 then
      let s := loader_ops.set_wdt_counter 0 s
      (fallback_target last_target, s)
    else
      let s := loader_ops.set_wdt_counter wdt_counter s
      (last_target, s)

/-- The function `target_from_reset` of bootlogic.c. -/
def target_from_reset (rs : reset_sources) (s : platform) : targets × platform :=
  let target := TARGET_UNKNOWN
  let boot_case := [boot_fw_update, boot_reset, boot_watchdog]
  run_boot_case boot_case rs target s

/-- The function `target_from_inputs` of bootlogic.c. -/
def target_from_inputs (_flow_type : flow_types) (s : platform) : targets × platform :=
  let (ok, s) := loader_ops.is_battery_ok s
  if !ok then (TARGET_COLD_OFF, s)
  else
    let (ws, s) := loader_ops.get_wake_source s
    if ws = WAKE_ERROR then (TARGET_BOOT, s)
    else if ws ≠ WAKE_NOT_APPLICABLE then target_from_off ws s
    else
      let (rs, s) := loader_ops.get_reset_source s
      if rs = RESET_ERROR then (TARGET_BOOT, s)
      else
        let rs := if rs = RESET_NOT_APPLICABLE then RESET_OS_INITIATED else rs
        target_from_reset rs s

/-- The function `get_cmdline` of bootlogic.c.  The helper `append_strings` is
declared in a header that is not part of the sources at hand and is taken as
a parameter; the two `free` calls have no counterpart here. -/
def get_cmdline (append_strings : cmdline_t → cmdline_t → cmdline_t)
    (cmdline : cmdline_t) (s : platform) : cmdline_t × platform :=
  let (extra_cmdline, s) := loader_ops.get_extra_cmdline s
  let updated_cmdline := append_strings extra_cmdline cmdline
  (updated_cmdline, s)

/-- The function `check_target` of bootlogic.c. -/
def check_target (_target : targets) : EFI_STATUS :=
  EFI_SUCCESS

/-- The loop `while (check_target(target)) target = fallback_target(target);`
of `start_boot_logic`, with a bound on the number of tests of the condition:
`none` when the bound is used up before the condition turns false. -/
def check_target_loop : Nat → targets → Option targets
  | 0, _ => none
  | fuel + 1, target =>
    if check_target target ≠ 0 then check_target_loop fuel (fallback_target target)
    else some target

/-- How a run of `start_boot_logic` ends: it returns a status, or control
never comes back from `do_cold_off` or `load_target`, or the bound on the
validation loop is used up. -/
inductive boot_result where
  | returned (ret : EFI_STATUS)
  | no_return
  | out_of_fuel
  deriving DecidableEq, Repr

/-- The function `start_boot_logic` of bootlogic.c; `fuel` bounds the
validation loop. -/
def start_boot_logic (append_strings : cmdline_t → cmdline_t → cmdline_t) (fuel : Nat)
    (cmdline : cmdline_t) (s : platform) : boot_result × platform :=
  let s := loader_ops.hook_bootlogic_begin s
  let (ret, s) := loader_ops.check_partition_table s
  if EFI_ERROR ret then (.returned ret, s)
  else
    let (flow_type, s) := loader_ops.read_flow_type s
    let (target, s) := target_from_inputs flow_type s
    let target := if target = TARGET_UNKNOWN then TARGET_BOOT else target
    let (back, s) :=
      if target = TARGET_COLD_OFF then loader_ops.do_cold_off s else (true, s)
    if !back then (.no_return, s)
    else
      let s := loader_ops.display_splash s
      match check_target_loop fuel target with
      | none => (.out_of_fuel, s)
      | some target =>
        let (ret, s) := loader_ops.populate_indicators s
        if EFI_ERROR ret then (.returned ret, s)
        else
          let (_ret, s) := loader_ops.save_target_mode target s
          let (updated_cmdline, s) := get_cmdline append_strings cmdline s
          let s := loader_ops.hook_bootlogic_end s
          match loader_ops.load_target target updated_cmdline s with
          | (none, s) => (.no_return, s)
          | (some ret, s) => (.returned ret, s)

/-! ## Notions used to state the properties -/

/-- The watchdog-class reset sources of section 4.3 of the spec: kernel,
security, PMC, EC or platform watchdog, or security-initiated. -/
def watchdog_class (rs : reset_sources) : Prop :=
  rs = RESET_KERNEL_WATCHDOG ∨ rs = RESET_SECURITY_WATCHDOG ∨ rs = RESET_PMC_WATCHDOG ∨
    rs = RESET_EC_WATCHDOG ∨ rs = RESET_PLATFORM_WATCHDOG ∨ rs = RESET_SECURITY_INITIATED

instance (rs : reset_sources) : Decidable (watchdog_class rs) := by
  unfold watchdog_class; infer_instance

/-- A platform at rest: battery fine and at boot-os level, no wake or reset
reason, nothing persisted, every fallible call succeeding, no call made yet. -/
def quiet_platform : platform where
  battery_ok := true
  battery_level := BATT_BOOT_OS
  wake_source := WAKE_NOT_APPLICABLE
  reset_source := RESET_NOT_APPLICABLE
  shutdown_source := SHTDWN_OTHER 0
  combo_fastboot := false
  flow_type := 0
  partition_table_status := EFI_SUCCESS
  indicators_status := EFI_SUCCESS
  save_status := fun _ => EFI_SUCCESS
  cold_off_returns := true
  load_status := fun _ _ => none
  extra_cmdline := none
  target_mode := TARGET_UNKNOWN
  wdt_counter := 0
  rtc_alarm_charging := 0
  saved_target_mode := none
  calls := []

/-- Section 4.2 of the spec in its own words: of the rule results, in order,
the first one other than unknown wins; unknown if there is none. -/
def first_known_target (results : List targets) : targets :=
  match results.find? (fun t => decide (t ≠ TARGET_UNKNOWN)) with
  | some t => t
  | none => TARGET_UNKNOWN

/-- The calls that the resolver `target_from_inputs` and its rule chains can
make: the signal reads, the reads of the persisted target and counter, and the
two writes of `forced_shutdown` and `boot_watchdog`. -/
def resolver_call (c : op_call) : Bool :=
  match c with
  | .is_battery_ok | .get_wake_source | .get_reset_source | .get_shutdown_source
  | .combo_key | .get_battery_level | .get_target_mode | .get_wdt_counter
  | .set_wdt_counter _ | .set_rtc_alarm_charging _ => true
  | _ => false

/-- The platform as `start_boot_logic` hands it to the resolver: the begin
hook, the partition table check and the flow type read have been called. -/
def resolver_entry (s : platform) : platform :=
  ((s.log .hook_bootlogic_begin).log .check_partition_table).log .read_flow_type

/-- A watchdog-class reset run: the platform signals send the resolver
through the reset chain (battery ok, wake source not-applicable) on a
watchdog-class reset source. -/
def watchdog_run (b : platform) : Prop :=
  b.battery_ok = true ∧ b.wake_source = WAKE_NOT_APPLICABLE ∧ watchdog_class b.reset_source

instance (b : platform) : Decidable (watchdog_run b) := by
  unfold watchdog_run; infer_instance

/-- The platform at a later boot: the signals and the stored target are those
of `boot`; the counter, the RTC-alarm-charging flag and the call list are the
ones the previous run left in `prev`. -/
def next_boot (boot prev : platform) : platform :=
  { boot with
    wdt_counter := prev.wdt_counter,
    rtc_alarm_charging := prev.rtc_alarm_charging,
    calls := prev.calls }

/-- The platform after a sequence of boots, oldest first, each of which runs
the resolver once. -/
def resolver_runs (flow_type : flow_types) (boots : List platform) (s : platform) :
    platform :=
  boots.foldl (fun prev boot => (target_from_inputs flow_type (next_boot boot prev)).2) s

/-- The watchdog rule escalates on a resolver run: the run ends with the call
`set_wdt_counter(0)`.  Only the fallback branch of `boot_watchdog` ends a run
so (`forced_shutdown` is followed by the combo key read). -/
def escalates (flow_type : flow_types) (s : platform) : Prop :=
  (target_from_inputs flow_type s).2.calls.getLast? = some (op_call.set_wdt_counter 0)

instance (flow_type : flow_types) (s : platform) : Decidable (escalates flow_type s) := by
  unfold escalates; infer_instance

/-- Three boots with stored target boot: a kernel watchdog reset, a second
one, then an OS-initiated reset. -/
def interrupted_boots : List platform :=
  [{ quiet_platform with target_mode := TARGET_BOOT, reset_source := RESET_KERNEL_WATCHDOG },
   { quiet_platform with target_mode := TARGET_BOOT, reset_source := RESET_KERNEL_WATCHDOG },
   { quiet_platform with target_mode := TARGET_BOOT, reset_source := RESET_OS_INITIATED }]

/-- The target `start_boot_logic` goes on with after the resolver: the resolver
result, with unknown replaced by boot. -/
def resolved_target (s : platform) : targets :=
  if (target_from_inputs s.flow_type (resolver_entry s)).1 = TARGET_UNKNOWN then TARGET_BOOT
  else (target_from_inputs s.flow_type (resolver_entry s)).1

/-- A command line merge used in the examples: the two command lines separated
by a blank, or the one that is present. -/
def sample_append_strings : cmdline_t → cmdline_t → cmdline_t
  | some a, some b => some (a ++ " " ++ b)
  | some a, none => some a
  | none, b => b

/-! ## uefi_boot.c and the wiring of x86.c -/

/-- The status `EFI_NOT_FOUND` of efi.h, `EFIERR(14)`. -/
def EFI_NOT_FOUND : EFI_STATUS := 2 ^ 63 + 14

/-- The status `EFI_WRITE_PROTECTED` of efi.h, `EFIERR(8)`. -/
def EFI_WRITE_PROTECTED : EFI_STATUS := 2 ^ 63 + 8

/-- The UEFI variables of the loader GUID `target_mode_guid`, by name (`none`
for a variable that does not exist), and what the firmware answers, variable
by variable, to the `SetVariable` that deletes an existing variable and to the
one that writes a variable; a status that is an error leaves the variable as
it was.  The two answers are independent: the firmware may refuse the delete
of one variable and accept the write of another.  The variable services are
firmware and gnu-efi library code outside the repository. -/
structure uefi_vars where
  vars : String → Option String
  delete_status : String → EFI_STATUS
  write_status : String → EFI_STATUS

/-- The gnu-efi call `LibGetVariable(name, guid)`: the value, or NULL. -/
def LibGetVariable (name : String) (st : uefi_vars) : Option String :=
  st.vars name

/-- The gnu-efi call `LibDeleteVariable(name, guid)`: `EFI_NOT_FOUND` when the
variable does not exist, else the status of the deleting `SetVariable`. -/
def LibDeleteVariable (name : String) (st : uefi_vars) : EFI_STATUS × uefi_vars :=
  match LibGetVariable name st with
  | none => (EFI_NOT_FOUND, st)
  | some _ =>
    if EFI_ERROR (st.delete_status name) then (st.delete_status name, st)
    else
      (st.delete_status name,
        { st with vars := fun n => if n = name then none else st.vars n })

/-- The gnu-efi call `LibSetNVVariable(name, guid, size, data)` with a
non-empty `data`: the status of the writing `SetVariable`. -/
def LibSetNVVariable (name : String) (data : String) (st : uefi_vars) :
    EFI_STATUS × uefi_vars :=
  if EFI_ERROR (st.write_status name) then (st.write_status name, st)
  else
    (st.write_status name,
      { st with vars := fun n => if n = name then some data else st.vars n })

/-- The variable name `target_mode_name` of uefi_boot.c. -/
def target_mode_name : String := "LoaderEntryOneShot"

/-- The variable name `last_target_mode_name` of uefi_boot.c. -/
def last_target_mode_name : String := "LoaderEntryLast"

/-- The function `get_entry_oneshot` of uefi_boot.c.  The helper
`name_to_target` is declared in a header that is not part of the sources at
hand and is taken as a parameter: it answers a status and the target. -/
def get_entry_oneshot (name_to_target : String → EFI_STATUS × targets)
    (st : uefi_vars) : targets :=
  match LibGetVariable target_mode_name st with
  | none => TARGET_UNKNOWN
  | some name =>
    let (status, target) := name_to_target name
    if EFI_ERROR status then TARGET_UNKNOWN else target

/-- The function `set_entry_last` of uefi_boot.c.  The helper `target_to_name`
is declared in a header that is not part of the sources at hand and is taken
as a parameter: it answers a status and the name.  The status of
`LibDeleteVariable` is only logged: whatever it is, the function goes on to
write `LoaderEntryLast` and returns the status of that write. -/
def set_entry_last (target_to_name : targets → EFI_STATUS × String)
    (target : targets) (st : uefi_vars) : EFI_STATUS × uefi_vars :=
  let (status, name) := target_to_name target
  if EFI_ERROR status then (status, st)
  else
    let (_status, st) := LibDeleteVariable target_mode_name st
    LibSetNVVariable last_target_mode_name name st

/-- The platform as `x86_ops` wires it over a variable store:
`get_target_mode` is `get_entry_oneshot`, so what it answers during a resolver
run is read off the store (the resolver does not write the store). -/
def x86_platform (name_to_target : String → EFI_STATUS × targets) (st : uefi_vars)
    (s : platform) : platform :=
  { s with target_mode := get_entry_oneshot name_to_target st }

/-- A name table used in the examples: boot, recovery and fastboot have a
name. -/
def sample_target_to_name : targets → EFI_STATUS × String
  | TARGET_BOOT => (EFI_SUCCESS, "boot")
  | TARGET_RECOVERY => (EFI_SUCCESS, "recovery")
  | TARGET_FASTBOOT => (EFI_SUCCESS, "fastboot")
  | _ => (EFI_NOT_FOUND, "")

/-- The inverse of the name table `sample_target_to_name`. -/
def sample_name_to_target (name : String) : EFI_STATUS × targets :=
  if name = "boot" then (EFI_SUCCESS, TARGET_BOOT)
  else if name = "recovery" then (EFI_SUCCESS, TARGET_RECOVERY)
  else if name = "fastboot" then (EFI_SUCCESS, TARGET_FASTBOOT)
  else (EFI_NOT_FOUND, TARGET_UNKNOWN)

/-- A variable store with no variable set, whose firmware accepts every
delete and every write. -/
def empty_vars : uefi_vars where
  vars := fun _ => none
  delete_status := fun _ => EFI_SUCCESS
  write_status := fun _ => EFI_SUCCESS

/-- A variable store whose `LoaderEntryOneShot` names fastboot and whose
firmware refuses every delete and accepts every write. -/
def oneshot_kept_vars : uefi_vars where
  vars := fun n => if n = target_mode_name then some "fastboot" else none
  delete_status := fun _ => EFI_WRITE_PROTECTED
  write_status := fun _ => EFI_SUCCESS

/-! ## Properties -/

/-- C1: when `is_battery_ok()` answers false, `target_from_inputs` returns
`TARGET_COLD_OFF`, whatever the other signals and the persisted state are. -/
theorem target_from_inputs_battery_not_ok (flow_type : flow_types) (s : platform)
    (h : s.battery_ok = false) :
    (target_from_inputs flow_type s).1 = TARGET_COLD_OFF := by
  simp [target_from_inputs, loader_ops.is_battery_ok, h]

/-- Witness of C1: battery not ok, power button pressed, a watchdog reset
pending, fastboot combo held, last target recovery, counter 2. -/
theorem target_from_inputs_battery_not_ok_witness :
    (target_from_inputs 0 { quiet_platform with
        battery_ok := false, wake_source := WAKE_POWER_BUTTON_PRESSED,
        reset_source := RESET_KERNEL_WATCHDOG, combo_fastboot := true,
        target_mode := TARGET_RECOVERY, wdt_counter := 2 }).1 = TARGET_COLD_OFF :=
  target_from_inputs_battery_not_ok 0 _ rfl

/-- Inside the range of a C `int`, `int_wrap` changes nothing. -/
theorem int_wrap_of_int (x : Int) (hmin : INT_MIN ≤ x) (hmax : x ≤ INT_MAX) :
    int_wrap x = x := by
  unfold INT_MIN at hmin
  unfold INT_MAX at hmax
  unfold int_wrap
  omega

/-- C5: `fallback_target` sends boot to recovery, recovery to fastboot,
fastboot to DNX, and every other target (test, cold-off, charging, DNX,
unknown) to unknown. -/
theorem fallback_target_table :
    fallback_target TARGET_BOOT = TARGET_RECOVERY ∧
    fallback_target TARGET_RECOVERY = TARGET_FASTBOOT ∧
    fallback_target TARGET_FASTBOOT = TARGET_DNX ∧
    fallback_target TARGET_TEST = TARGET_UNKNOWN ∧
    fallback_target TARGET_COLD_OFF = TARGET_UNKNOWN ∧
    fallback_target TARGET_CHARGING = TARGET_UNKNOWN ∧
    fallback_target TARGET_DNX = TARGET_UNKNOWN ∧
    fallback_target TARGET_UNKNOWN = TARGET_UNKNOWN ∧
    (∀ t : targets, t ≠ TARGET_BOOT → t ≠ TARGET_RECOVERY → t ≠ TARGET_FASTBOOT →
      fallback_target t = TARGET_UNKNOWN) := by
  refine ⟨rfl, rfl, rfl, rfl, rfl, rfl, rfl, rfl, ?_⟩
  intro t h1 h2 h3
  cases t <;> first | rfl | contradiction

/-- Four applications of `fallback_target` send every target to unknown. -/
theorem fallback_target_four (t : targets) :
    fallback_target^[4] t = TARGET_UNKNOWN := by
  cases t <;> rfl

/-- C6: iterating `fallback_target` from boot gives boot, recovery, fastboot,
DNX, unknown; unknown is a fixed point; and from any target, four or more
applications give unknown. -/
theorem fallback_target_chain :
    fallback_target^[0] TARGET_BOOT = TARGET_BOOT ∧
    fallback_target^[1] TARGET_BOOT = TARGET_RECOVERY ∧
    fallback_target^[2] TARGET_BOOT = TARGET_FASTBOOT ∧
    fallback_target^[3] TARGET_BOOT = TARGET_DNX ∧
    fallback_target^[4] TARGET_BOOT = TARGET_UNKNOWN ∧
    fallback_target TARGET_UNKNOWN = TARGET_UNKNOWN ∧
    (∀ (t : targets) (n : Nat), 4 ≤ n → fallback_target^[n] t = TARGET_UNKNOWN) := by
  refine ⟨rfl, rfl, rfl, rfl, rfl, rfl, ?_⟩
  intro t n hn
  obtain ⟨k, rfl⟩ := Nat.exists_eq_add_of_le hn
  rw [Nat.add_comm, Function.iterate_add_apply, fallback_target_four]
  exact Function.iterate_fixed rfl k

/-- One resolver run on a watchdog-class reset source, battery ok and wake
source not-applicable: the target and the stored counter are the ones of the
watchdog rule, and the signals and the stored target are left alone. -/
theorem target_from_inputs_watchdog_run (flow_type : flow_types) (s : platform)
    (hbatt : s.battery_ok = true) (hwake : s.wake_source = WAKE_NOT_APPLICABLE)
    (hrs : watchdog_class s.reset_source) :
    (target_from_inputs flow_type s).1 =
      (if int_wrap (s.wdt_counter + 1) ≥ 3 then fallback_target s.target_mode
       else s.target_mode) ∧
    (target_from_inputs flow_type s).2.wdt_counter =
      (if int_wrap (s.wdt_counter + 1) ≥ 3 then 0 else int_wrap (s.wdt_counter + 1)) ∧
    (target_from_inputs flow_type s).2.target_mode = s.target_mode ∧
    (target_from_inputs flow_type s).2.battery_ok = s.battery_ok ∧
    (target_from_inputs flow_type s).2.wake_source = s.wake_source := by
  unfold watchdog_class at hrs
  by_cases hc : int_wrap (s.wdt_counter + 1) ≥ 3 <;>
  rcases hrs with h | h | h | h | h | h <;>
  simp [target_from_inputs, target_from_reset, run_boot_case, boot_fw_update, boot_reset,
    boot_watchdog, loader_ops.is_battery_ok, loader_ops.get_wake_source,
    loader_ops.get_reset_source, loader_ops.get_wdt_counter, loader_ops.get_target_mode,
    loader_ops.set_wdt_counter, platform.log, hbatt, hwake, h, hc]

/-- The same run from a stored counter in the range of a C `int` other than
`INT_MAX`, where the increment does not wrap. -/
theorem target_from_inputs_watchdog_run_in_range (flow_type : flow_types) (s : platform)
    (hbatt : s.battery_ok = true) (hwake : s.wake_source = WAKE_NOT_APPLICABLE)
    (hrs : watchdog_class s.reset_source)
    (hmin : INT_MIN ≤ s.wdt_counter) (hmax : s.wdt_counter < INT_MAX) :
    (target_from_inputs flow_type s).1 =
      (if s.wdt_counter + 1 ≥ 3 then fallback_target s.target_mode else s.target_mode) ∧
    (target_from_inputs flow_type s).2.wdt_counter =
      (if s.wdt_counter + 1 ≥ 3 then 0 else s.wdt_counter + 1) ∧
    (target_from_inputs flow_type s).2.target_mode = s.target_mode ∧
    (target_from_inputs flow_type s).2.battery_ok = s.battery_ok ∧
    (target_from_inputs flow_type s).2.wake_source = s.wake_source := by
  have hw : int_wrap (s.wdt_counter + 1) = s.wdt_counter + 1 :=
    int_wrap_of_int _ (by unfold INT_MIN at *; omega) (by unfold INT_MAX at *; omega)
  have h := target_from_inputs_watchdog_run flow_type s hbatt hwake hrs
  rw [hw] at h
  exact h

/-- C4: from stored target boot and counter 0, with the battery ok and the
wake source not-applicable, three successive resolver runs on watchdog-class
reset sources return boot with counter 1, boot with counter 2, then recovery
with counter 0; the three reset sources are any of the six watchdog-class
ones. -/
theorem watchdog_three_strikes (flow_type : flow_types) (s : platform)
    (rs1 rs2 rs3 : reset_sources)
    (hbatt : s.battery_ok = true) (hwake : s.wake_source = WAKE_NOT_APPLICABLE)
    (hlast : s.target_mode = TARGET_BOOT) (hcnt : s.wdt_counter = 0)
    (h1 : watchdog_class rs1) (h2 : watchdog_class rs2) (h3 : watchdog_class rs3) :
    (target_from_inputs flow_type { s with reset_source := rs1 }).1 = TARGET_BOOT ∧
    (target_from_inputs flow_type { s with reset_source := rs1 }).2.wdt_counter = 1 ∧
    (target_from_inputs flow_type { s with reset_source := rs1 }).2.target_mode
      = TARGET_BOOT ∧
    (target_from_inputs flow_type
      { (target_from_inputs flow_type { s with reset_source := rs1 }).2 with
        reset_source := rs2 }).1 = TARGET_BOOT ∧
    (target_from_inputs flow_type
      { (target_from_inputs flow_type { s with reset_source := rs1 }).2 with
        reset_source := rs2 }).2.wdt_counter = 2 ∧
    (target_from_inputs flow_type
      { (target_from_inputs flow_type { s with reset_source := rs1 }).2 with
        reset_source := rs2 }).2.target_mode = TARGET_BOOT ∧
    (target_from_inputs flow_type
      { (target_from_inputs flow_type
          { (target_from_inputs flow_type { s with reset_source := rs1 }).2 with
            reset_source := rs2 }).2 with
        reset_source := rs3 }).1 = TARGET_RECOVERY ∧
    (target_from_inputs flow_type
      { (target_from_inputs flow_type
          { (target_from_inputs flow_type { s with reset_source := rs1 }).2 with
            reset_source := rs2 }).2 with
        reset_source := rs3 }).2.wdt_counter = 0 := by
  obtain ⟨t1, c1, m1, b1, w1⟩ :=
    target_from_inputs_watchdog_run_in_range flow_type { s with reset_source := rs1 }
      hbatt hwake h1
      (by show INT_MIN ≤ s.wdt_counter; rw [hcnt]; decide)
      (by show s.wdt_counter < INT_MAX; rw [hcnt]; decide)
  replace t1 := t1.trans (show _ = TARGET_BOOT by simp [hlast, hcnt])
  replace c1 := c1.trans (show _ = (1 : Int) by simp [hcnt])
  replace m1 := m1.trans hlast
  replace b1 := b1.trans hbatt
  replace w1 := w1.trans hwake
  obtain ⟨t2, c2, m2, b2, w2⟩ :=
    target_from_inputs_watchdog_run_in_range flow_type
      { (target_from_inputs flow_type { s with reset_source := rs1 }).2 with
        reset_source := rs2 } b1 w1 h2
      (by
        show INT_MIN ≤ (target_from_inputs flow_type { s with reset_source := rs1 }).2.wdt_counter
        rw [c1]; decide)
      (by
        show (target_from_inputs flow_type { s with reset_source := rs1 }).2.wdt_counter < INT_MAX
        rw [c1]; decide)
  replace m2 := m2.trans m1
  replace t2 := t2.trans (show _ = TARGET_BOOT by
    show (if _ + 1 ≥ 3 then fallback_target _ else
      (target_from_inputs flow_type { s with reset_source := rs1 }).2.target_mode) = _
    rw [c1, m1]; rfl)
  replace c2 := c2.trans (show _ = (2 : Int) by
    show (if (target_from_inputs flow_type { s with reset_source := rs1 }).2.wdt_counter + 1 ≥ 3
      then 0 else _ + 1) = _
    rw [c1]; rfl)
  replace b2 := b2.trans b1
  replace w2 := w2.trans w1
  obtain ⟨t3, c3, -, -, -⟩ :=
    target_from_inputs_watchdog_run_in_range flow_type
      { (target_from_inputs flow_type
          { (target_from_inputs flow_type { s with reset_source := rs1 }).2 with
            reset_source := rs2 }).2 with
        reset_source := rs3 } b2 w2 h3
      (by
        show INT_MIN ≤ (target_from_inputs flow_type
          { (target_from_inputs flow_type { s with reset_source := rs1 }).2 with
            reset_source := rs2 }).2.wdt_counter
        rw [c2]; decide)
      (by
        show (target_from_inputs flow_type
          { (target_from_inputs flow_type { s with reset_source := rs1 }).2 with
            reset_source := rs2 }).2.wdt_counter < INT_MAX
        rw [c2]; decide)
  refine ⟨t1, c1, m1, t2, c2, m2, t3.trans ?_, c3.trans ?_⟩
  · show (if (target_from_inputs flow_type
        { (target_from_inputs flow_type { s with reset_source := rs1 }).2 with
          reset_source := rs2 }).2.wdt_counter + 1 ≥ 3
      then fallback_target (target_from_inputs flow_type
        { (target_from_inputs flow_type { s with reset_source := rs1 }).2 with
          reset_source := rs2 }).2.target_mode else _) = _
    rw [c2, m2]; rfl
  · show (if (target_from_inputs flow_type
        { (target_from_inputs flow_type { s with reset_source := rs1 }).2 with
          reset_source := rs2 }).2.wdt_counter + 1 ≥ 3
      then 0 else _) = _
    rw [c2]; rfl

/-- Witness of C4: kernel watchdog, then security-initiated, then EC watchdog
on a platform at rest whose stored target is boot. -/
theorem watchdog_three_strikes_witness :
    (target_from_inputs 0 { { quiet_platform with target_mode := TARGET_BOOT } with
      reset_source := RESET_KERNEL_WATCHDOG }).1 = TARGET_BOOT ∧
    (target_from_inputs 0 { { quiet_platform with target_mode := TARGET_BOOT } with
      reset_source := RESET_KERNEL_WATCHDOG }).2.wdt_counter = 1 ∧
    (target_from_inputs 0 { { quiet_platform with target_mode := TARGET_BOOT } with
      reset_source := RESET_KERNEL_WATCHDOG }).2.target_mode = TARGET_BOOT ∧
    (target_from_inputs 0
      { (target_from_inputs 0 { { quiet_platform with target_mode := TARGET_BOOT } with
          reset_source := RESET_KERNEL_WATCHDOG }).2 with
        reset_source := RESET_SECURITY_INITIATED }).1 = TARGET_BOOT ∧
    (target_from_inputs 0
      { (target_from_inputs 0 { { quiet_platform with target_mode := TARGET_BOOT } with
          reset_source := RESET_KERNEL_WATCHDOG }).2 with
        reset_source := RESET_SECURITY_INITIATED }).2.wdt_counter = 2 ∧
    (target_from_inputs 0
      { (target_from_inputs 0 { { quiet_platform with target_mode := TARGET_BOOT } with
          reset_source := RESET_KERNEL_WATCHDOG }).2 with
        reset_source := RESET_SECURITY_INITIATED }).2.target_mode = TARGET_BOOT ∧
    (target_from_inputs 0
      { (target_from_inputs 0
          { (target_from_inputs 0 { { quiet_platform with target_mode := TARGET_BOOT } with
              reset_source := RESET_KERNEL_WATCHDOG }).2 with
            reset_source := RESET_SECURITY_INITIATED }).2 with
        reset_source := RESET_EC_WATCHDOG }).1 = TARGET_RECOVERY ∧
    (target_from_inputs 0
      { (target_from_inputs 0
          { (target_from_inputs 0 { { quiet_platform with target_mode := TARGET_BOOT } with
              reset_source := RESET_KERNEL_WATCHDOG }).2 with
            reset_source := RESET_SECURITY_INITIATED }).2 with
        reset_source := RESET_EC_WATCHDOG }).2.wdt_counter = 0 :=
  watchdog_three_strikes 0 { quiet_platform with target_mode := TARGET_BOOT }
    RESET_KERNEL_WATCHDOG RESET_SECURITY_INITIATED RESET_EC_WATCHDOG
    rfl rfl rfl rfl (by decide) (by decide) (by decide)

/-- C7: with the battery ok, a wake source read error gives boot, and so does
a reset source read error when the wake source is not-applicable; the stored
target `t` and the stored counter `c` play no part. -/
theorem target_from_inputs_read_error (flow_type : flow_types) (s : platform)
    (t : targets) (c : Int) (hbatt : s.battery_ok = true) :
    (s.wake_source = WAKE_ERROR →
      (target_from_inputs flow_type { s with target_mode := t, wdt_counter := c }).1
        = TARGET_BOOT) ∧
    (s.wake_source = WAKE_NOT_APPLICABLE → s.reset_source = RESET_ERROR →
      (target_from_inputs flow_type { s with target_mode := t, wdt_counter := c }).1
        = TARGET_BOOT) := by
  constructor
  · intro hw
    simp [target_from_inputs, loader_ops.is_battery_ok, loader_ops.get_wake_source,
      platform.log, hbatt, hw]
  · intro hw hr
    simp [target_from_inputs, loader_ops.is_battery_ok, loader_ops.get_wake_source,
      loader_ops.get_reset_source, platform.log, hbatt, hw, hr]

/-- Witness of C7: a wake source read error, and a reset source read error,
on a platform whose stored target is recovery and whose counter is 2. -/
theorem target_from_inputs_read_error_witness :
    (target_from_inputs 0
      { { quiet_platform with wake_source := WAKE_ERROR } with
        target_mode := TARGET_RECOVERY, wdt_counter := 2 }).1 = TARGET_BOOT ∧
    (target_from_inputs 0
      { { quiet_platform with reset_source := RESET_ERROR } with
        target_mode := TARGET_RECOVERY, wdt_counter := 2 }).1 = TARGET_BOOT :=
  ⟨(target_from_inputs_read_error 0 { quiet_platform with wake_source := WAKE_ERROR }
      TARGET_RECOVERY 2 rfl).1 rfl,
   (target_from_inputs_read_error 0 { quiet_platform with reset_source := RESET_ERROR }
      TARGET_RECOVERY 2 rfl).2 rfl rfl⟩

/-- C10: `target_from_off` returns the result of the first of the rules
fastboot-combo, power-key, RTC, battery-insertion, charger-insertion that is
not unknown, and unknown when there is none; with the combo key held, the power
button pressed and the battery at boot-charging level that is fastboot, where
the power-key rule on its own says charging. -/
theorem target_from_off_first_match (ws : wake_sources) (s : platform) :
    (target_from_off ws s).1 =
      first_known_target [(boot_fastboot_combo ws s).1, (boot_power_key ws s).1,
        (boot_rtc ws s).1, (boot_battery_insertion ws s).1,
        (boot_charger_insertion ws s).1] ∧
    (target_from_off WAKE_POWER_BUTTON_PRESSED
      { s with combo_fastboot := true, battery_level := BATT_BOOT_CHARGING }).1
        = TARGET_FASTBOOT ∧
    (boot_power_key WAKE_POWER_BUTTON_PRESSED
      { s with combo_fastboot := true, battery_level := BATT_BOOT_CHARGING }).1
        = TARGET_CHARGING := by
  refine ⟨?_, ?_, ?_⟩
  · rcases hk : s.combo_fastboot <;> rcases hl : s.battery_level <;>
      rcases hsd : s.shutdown_source <;> cases ws <;>
      simp [target_from_off, run_boot_case, boot_fastboot_combo, boot_power_key, boot_rtc,
        boot_battery_insertion, boot_charger_insertion, forced_shutdown, first_known_target,
        loader_ops.get_shutdown_source, loader_ops.combo_key, loader_ops.get_battery_level,
        loader_ops.set_rtc_alarm_charging, loader_ops.set_wdt_counter, platform.log,
        hk, hl, hsd]
  · rcases hsd : s.shutdown_source <;>
      simp [target_from_off, run_boot_case, boot_fastboot_combo, forced_shutdown,
        loader_ops.get_shutdown_source, loader_ops.combo_key, loader_ops.get_battery_level,
        loader_ops.set_rtc_alarm_charging, loader_ops.set_wdt_counter, platform.log, hsd]
  · simp [boot_power_key, loader_ops.get_battery_level, platform.log]

/-- The target of `target_from_off` in closed form: it is read off the combo
key, the battery level and the wake source. -/
theorem target_from_off_target (ws : wake_sources) (s : platform) :
    (target_from_off ws s).1 =
      if s.combo_fastboot = true then
        (if s.battery_level = BATT_LOW then TARGET_COLD_OFF else TARGET_FASTBOOT)
      else if ws = WAKE_POWER_BUTTON_PRESSED then
        (if s.battery_level = BATT_LOW then TARGET_COLD_OFF
         else if s.battery_level = BATT_BOOT_CHARGING then TARGET_CHARGING
         else TARGET_BOOT)
      else if ws = WAKE_USB_CHARGER_INSERTED ∨ ws = WAKE_ACDC_CHARGER_INSERTED then
        TARGET_CHARGING
      else TARGET_UNKNOWN := by
  rcases hk : s.combo_fastboot <;> rcases hl : s.battery_level <;>
    rcases hsd : s.shutdown_source <;> cases ws <;>
    simp [target_from_off, run_boot_case, boot_fastboot_combo, boot_power_key, boot_rtc,
      boot_battery_insertion, boot_charger_insertion, forced_shutdown,
      loader_ops.get_shutdown_source, loader_ops.combo_key, loader_ops.get_battery_level,
      loader_ops.set_rtc_alarm_charging, loader_ops.set_wdt_counter, platform.log,
      hk, hl, hsd]

/-- The counter after `target_from_off`: 0 after a power-button override
shutdown, untouched otherwise. -/
theorem target_from_off_wdt_counter (ws : wake_sources) (s : platform) :
    (target_from_off ws s).2.wdt_counter =
      if s.shutdown_source = SHTDWN_POWER_BUTTON_OVERRIDE then 0 else s.wdt_counter := by
  rcases hk : s.combo_fastboot <;> rcases hl : s.battery_level <;>
    rcases hsd : s.shutdown_source <;> cases ws <;>
    simp [target_from_off, run_boot_case, boot_fastboot_combo, boot_power_key, boot_rtc,
      boot_battery_insertion, boot_charger_insertion, forced_shutdown,
      loader_ops.get_shutdown_source, loader_ops.combo_key, loader_ops.get_battery_level,
      loader_ops.set_rtc_alarm_charging, loader_ops.set_wdt_counter, platform.log,
      hk, hl, hsd]

/-- The calls made by `target_from_off`, in order. -/
theorem target_from_off_calls (ws : wake_sources) (s : platform) :
    (target_from_off ws s).2.calls =
      s.calls ++ ([op_call.get_shutdown_source] ++
        (if s.shutdown_source = SHTDWN_POWER_BUTTON_OVERRIDE
          then [op_call.set_rtc_alarm_charging 0, op_call.set_wdt_counter 0] else []) ++
        [op_call.combo_key] ++
        (if s.combo_fastboot = true ∨ ws = WAKE_POWER_BUTTON_PRESSED
          then [op_call.get_battery_level] else [])) := by
  rcases hk : s.combo_fastboot <;> rcases hl : s.battery_level <;>
    rcases hsd : s.shutdown_source <;> cases ws <;>
    simp [target_from_off, run_boot_case, boot_fastboot_combo, boot_power_key, boot_rtc,
      boot_battery_insertion, boot_charger_insertion, forced_shutdown,
      loader_ops.get_shutdown_source, loader_ops.combo_key, loader_ops.get_battery_level,
      loader_ops.set_rtc_alarm_charging, loader_ops.set_wdt_counter, platform.log,
      hk, hl, hsd]

/-- C8: with the battery ok and a wake source that is neither not-applicable
nor error, `target_from_inputs` is `target_from_off` run after the two reads
`is_battery_ok` and `get_wake_source`: the target is the one of
`target_from_off`, it is the same for every reset source `rs` and stored target
`t`, the counter is 0 after a power-button override shutdown and untouched
otherwise, and none of the calls of the reset chain is made. -/
theorem target_from_inputs_wake_path (flow_type : flow_types) (s : platform)
    (rs : reset_sources) (t : targets)
    (hbatt : s.battery_ok = true)
    (hna : s.wake_source ≠ WAKE_NOT_APPLICABLE) (herr : s.wake_source ≠ WAKE_ERROR) :
    target_from_inputs flow_type s =
      target_from_off s.wake_source ((s.log .is_battery_ok).log .get_wake_source) ∧
    (target_from_inputs flow_type s).1 = (target_from_off s.wake_source s).1 ∧
    (target_from_inputs flow_type { s with reset_source := rs, target_mode := t }).1 =
      (target_from_off s.wake_source s).1 ∧
    (target_from_inputs flow_type s).2.wdt_counter =
      (if s.shutdown_source = SHTDWN_POWER_BUTTON_OVERRIDE then 0 else s.wdt_counter) ∧
    (∃ new, (target_from_inputs flow_type s).2.calls = s.calls ++ new ∧
      op_call.get_reset_source ∉ new ∧ op_call.get_wdt_counter ∉ new ∧
      op_call.get_target_mode ∉ new ∧
      ∀ n, n ≠ 0 → op_call.set_wdt_counter n ∉ new) := by
  have key : ∀ s1 : platform, s1.battery_ok = true → s1.wake_source = s.wake_source →
      target_from_inputs flow_type s1 =
        target_from_off s1.wake_source ((s1.log .is_battery_ok).log .get_wake_source) := by
    intro s1 hb hw
    simp [target_from_inputs, loader_ops.is_battery_ok, loader_ops.get_wake_source,
      platform.log, hb, hw, hna, herr]
  refine ⟨key s hbatt rfl, ?_, ?_, ?_, ?_⟩
  · rw [key s hbatt rfl, target_from_off_target, target_from_off_target]
    simp [platform.log]
  · rw [key { s with reset_source := rs, target_mode := t } hbatt rfl,
      target_from_off_target, target_from_off_target]
    simp [platform.log]
  · rw [key s hbatt rfl, target_from_off_wdt_counter]
    simp [platform.log]
  · rw [key s hbatt rfl, target_from_off_calls]
    refine ⟨_, by simp only [platform.log, List.append_assoc]; rfl, ?_⟩
    by_cases h1 : s.shutdown_source = SHTDWN_POWER_BUTTON_OVERRIDE <;>
      by_cases h2 : s.combo_fastboot = true ∨ s.wake_source = WAKE_POWER_BUTTON_PRESSED <;>
      simp [platform.log, h1, h2]

/-- Witness of C8: power button pressed at boot-os battery level while a kernel
watchdog reset is reported and the counter is 1: the target is the one of the
wake chain and the counter stays 1. -/
theorem target_from_inputs_wake_path_witness :
    (target_from_inputs 0
      { quiet_platform with
          wake_source := WAKE_POWER_BUTTON_PRESSED,
          reset_source := RESET_KERNEL_WATCHDOG, wdt_counter := 1 }).1 =
      (target_from_off WAKE_POWER_BUTTON_PRESSED
        { quiet_platform with
            wake_source := WAKE_POWER_BUTTON_PRESSED,
            reset_source := RESET_KERNEL_WATCHDOG, wdt_counter := 1 }).1 ∧
    (target_from_inputs 0
      { quiet_platform with
          wake_source := WAKE_POWER_BUTTON_PRESSED,
          reset_source := RESET_KERNEL_WATCHDOG, wdt_counter := 1 }).2.wdt_counter = 1 :=
  ⟨(target_from_inputs_wake_path 0
      { quiet_platform with
          wake_source := WAKE_POWER_BUTTON_PRESSED,
          reset_source := RESET_KERNEL_WATCHDOG, wdt_counter := 1 }
      RESET_OS_INITIATED TARGET_BOOT rfl (by decide) (by decide)).2.1,
   (target_from_inputs_wake_path 0
      { quiet_platform with
          wake_source := WAKE_POWER_BUTTON_PRESSED,
          reset_source := RESET_KERNEL_WATCHDOG, wdt_counter := 1 }
      RESET_OS_INITIATED TARGET_BOOT rfl (by decide) (by decide)).2.2.2.1⟩

/-- C9: with the battery ok and the wake source not-applicable, a resolver run
on reset source not-applicable ends as a run on reset source OS-initiated does
(same target, same persistent state, same calls): it returns the stored target
mode and leaves the counter as it was. -/
theorem target_from_inputs_reset_not_applicable (flow_type : flow_types) (s : platform)
    (hbatt : s.battery_ok = true) (hwake : s.wake_source = WAKE_NOT_APPLICABLE) :
    (target_from_inputs flow_type { s with reset_source := RESET_NOT_APPLICABLE }).1 =
      (target_from_inputs flow_type { s with reset_source := RESET_OS_INITIATED }).1 ∧
    (target_from_inputs flow_type { s with reset_source := RESET_NOT_APPLICABLE }).2.wdt_counter =
      (target_from_inputs flow_type { s with reset_source := RESET_OS_INITIATED }).2.wdt_counter ∧
    (target_from_inputs flow_type
        { s with reset_source := RESET_NOT_APPLICABLE }).2.rtc_alarm_charging =
      (target_from_inputs flow_type
        { s with reset_source := RESET_OS_INITIATED }).2.rtc_alarm_charging ∧
    (target_from_inputs flow_type { s with reset_source := RESET_NOT_APPLICABLE }).2.target_mode =
      (target_from_inputs flow_type { s with reset_source := RESET_OS_INITIATED }).2.target_mode ∧
    (target_from_inputs flow_type
        { s with reset_source := RESET_NOT_APPLICABLE }).2.saved_target_mode =
      (target_from_inputs flow_type
        { s with reset_source := RESET_OS_INITIATED }).2.saved_target_mode ∧
    (target_from_inputs flow_type { s with reset_source := RESET_NOT_APPLICABLE }).2.calls =
      (target_from_inputs flow_type { s with reset_source := RESET_OS_INITIATED }).2.calls ∧
    (target_from_inputs flow_type { s with reset_source := RESET_NOT_APPLICABLE }).1 =
      s.target_mode ∧
    (target_from_inputs flow_type { s with reset_source := RESET_NOT_APPLICABLE }).2.wdt_counter =
      s.wdt_counter ∧
    (target_from_inputs flow_type { s with reset_source := RESET_NOT_APPLICABLE }).2.calls =
      s.calls ++ [.is_battery_ok, .get_wake_source, .get_reset_source, .get_target_mode] := by
  by_cases ht : s.target_mode = TARGET_UNKNOWN <;>
    simp [target_from_inputs, target_from_reset, run_boot_case, boot_fw_update, boot_reset,
      boot_watchdog, loader_ops.is_battery_ok, loader_ops.get_wake_source,
      loader_ops.get_reset_source, loader_ops.get_target_mode, platform.log,
      hbatt, hwake, ht]

/-- Witness of C9: stored target recovery and counter 2 on a platform at
rest. -/
theorem target_from_inputs_reset_not_applicable_witness :
    (target_from_inputs 0
      { { quiet_platform with target_mode := TARGET_RECOVERY, wdt_counter := 2 } with
        reset_source := RESET_NOT_APPLICABLE }).1 = TARGET_RECOVERY ∧
    (target_from_inputs 0
      { { quiet_platform with target_mode := TARGET_RECOVERY, wdt_counter := 2 } with
        reset_source := RESET_NOT_APPLICABLE }).2.wdt_counter = 2 :=
  ⟨(target_from_inputs_reset_not_applicable 0
      { quiet_platform with target_mode := TARGET_RECOVERY, wdt_counter := 2 }
      rfl rfl).2.2.2.2.2.2.1,
   (target_from_inputs_reset_not_applicable 0
      { quiet_platform with target_mode := TARGET_RECOVERY, wdt_counter := 2 }
      rfl rfl).2.2.2.2.2.2.2.1⟩

/-- The reset chain only appends resolver calls to the call list. -/
theorem target_from_reset_calls (rs : reset_sources) (s : platform) :
    ∃ new, (target_from_reset rs s).2.calls = s.calls ++ new ∧
      ∀ c ∈ new, resolver_call c = true := by
  refine ⟨(target_from_reset rs s).2.calls.drop s.calls.length, ?_, ?_⟩ <;>
  by_cases ht : s.target_mode = TARGET_UNKNOWN <;>
  by_cases hc : int_wrap (s.wdt_counter + 1) ≥ 3 <;>
  cases rs <;>
  simp [target_from_reset, run_boot_case, boot_fw_update, boot_reset, boot_watchdog,
    loader_ops.get_wdt_counter, loader_ops.get_target_mode, loader_ops.set_wdt_counter,
    platform.log, resolver_call, ht, hc]

/-- The resolver only appends resolver calls to the call list. -/
theorem target_from_inputs_calls (flow_type : flow_types) (s : platform) :
    ∃ new, (target_from_inputs flow_type s).2.calls = s.calls ++ new ∧
      ∀ c ∈ new, resolver_call c = true := by
  rcases hb : s.battery_ok with _ | _
  · exact ⟨[.is_battery_ok], by
      simp [target_from_inputs, loader_ops.is_battery_ok, platform.log, hb], by
      simp [resolver_call]⟩
  by_cases he : s.wake_source = WAKE_ERROR
  · exact ⟨[.is_battery_ok, .get_wake_source], by
      simp [target_from_inputs, loader_ops.is_battery_ok, loader_ops.get_wake_source,
        platform.log, hb, he], by
      simp [resolver_call]⟩
  by_cases hna : s.wake_source = WAKE_NOT_APPLICABLE
  · by_cases hre : s.reset_source = RESET_ERROR
    · exact ⟨[.is_battery_ok, .get_wake_source, .get_reset_source], by
        simp [target_from_inputs, loader_ops.is_battery_ok, loader_ops.get_wake_source,
          loader_ops.get_reset_source, platform.log, hb, hna, hre], by
        simp [resolver_call]⟩
    · obtain ⟨new, hnew, hall⟩ := target_from_reset_calls
        (if s.reset_source = RESET_NOT_APPLICABLE then RESET_OS_INITIATED else s.reset_source)
        (((s.log .is_battery_ok).log .get_wake_source).log .get_reset_source)
      refine ⟨[.is_battery_ok, .get_wake_source, .get_reset_source] ++ new, ?_, ?_⟩
      · have : target_from_inputs flow_type s = target_from_reset
            (if s.reset_source = RESET_NOT_APPLICABLE then RESET_OS_INITIATED
              else s.reset_source)
            (((s.log .is_battery_ok).log .get_wake_source).log .get_reset_source) := by
          simp [target_from_inputs, loader_ops.is_battery_ok, loader_ops.get_wake_source,
            loader_ops.get_reset_source, platform.log, hb, hna, hre]
        rw [this, hnew]; simp [platform.log]
      · intro c hcm
        rcases List.mem_append.1 hcm with h | h
        · simp only [List.mem_cons, List.mem_singleton, List.not_mem_nil, or_false] at h
          rcases h with rfl | rfl | rfl <;> rfl
        · exact hall c h
  · have : target_from_inputs flow_type s =
        target_from_off s.wake_source ((s.log .is_battery_ok).log .get_wake_source) := by
      simp [target_from_inputs, loader_ops.is_battery_ok, loader_ops.get_wake_source,
        platform.log, hb, he, hna]
    rw [this, target_from_off_calls]
    refine ⟨_, by simp only [platform.log, List.append_assoc]; rfl, ?_⟩
    by_cases h1 : s.shutdown_source = SHTDWN_POWER_BUTTON_OVERRIDE <;>
      by_cases h2 : s.combo_fastboot = true ∨ s.wake_source = WAKE_POWER_BUTTON_PRESSED <;>
      simp [platform.log, resolver_call, h1, h2]

/-- The wake chain writes nothing but the counter, the RTC-alarm-charging flag
and the call list. -/
theorem target_from_off_frame (ws : wake_sources) (s : platform) :
    (target_from_off ws s).2 =
      { s with
        wdt_counter := (target_from_off ws s).2.wdt_counter,
        rtc_alarm_charging := (target_from_off ws s).2.rtc_alarm_charging,
        calls := (target_from_off ws s).2.calls } := by
  rcases hk : s.combo_fastboot <;> rcases hl : s.battery_level <;>
    rcases hsd : s.shutdown_source <;> cases ws <;>
    simp [target_from_off, run_boot_case, boot_fastboot_combo, boot_power_key, boot_rtc,
      boot_battery_insertion, boot_charger_insertion, forced_shutdown,
      loader_ops.get_shutdown_source, loader_ops.combo_key, loader_ops.get_battery_level,
      loader_ops.set_rtc_alarm_charging, loader_ops.set_wdt_counter, platform.log,
      hk, hl, hsd]

/-- The reset chain writes nothing but the counter and the call list. -/
theorem target_from_reset_frame (rs : reset_sources) (s : platform) :
    (target_from_reset rs s).2 =
      { s with
        wdt_counter := (target_from_reset rs s).2.wdt_counter,
        calls := (target_from_reset rs s).2.calls } := by
  rcases s with ⟨bo, bl, ws, rs0, sd, ck, ft, pts, ist, ss, cor, ls, ec, tm, wc, rac, stm, cl⟩
  by_cases ht : tm = TARGET_UNKNOWN <;>
  by_cases hc : int_wrap (wc + 1) ≥ 3 <;>
  cases rs <;>
  simp [target_from_reset, run_boot_case, boot_fw_update, boot_reset, boot_watchdog,
    loader_ops.get_wdt_counter, loader_ops.get_target_mode, loader_ops.set_wdt_counter,
    platform.log, ht, hc]

/-- The resolver writes nothing but the counter, the RTC-alarm-charging flag
and the call list. -/
theorem target_from_inputs_frame (flow_type : flow_types) (s : platform) :
    (target_from_inputs flow_type s).2 =
      { s with
        wdt_counter := (target_from_inputs flow_type s).2.wdt_counter,
        rtc_alarm_charging := (target_from_inputs flow_type s).2.rtc_alarm_charging,
        calls := (target_from_inputs flow_type s).2.calls } := by
  by_cases hb : s.battery_ok = true
  swap
  · simp [target_from_inputs, loader_ops.is_battery_ok, platform.log, hb]
  by_cases he : s.wake_source = WAKE_ERROR
  · simp [target_from_inputs, loader_ops.is_battery_ok, loader_ops.get_wake_source,
      platform.log, hb, he]
  by_cases hna : s.wake_source = WAKE_NOT_APPLICABLE
  · by_cases hre : s.reset_source = RESET_ERROR
    · simp [target_from_inputs, loader_ops.is_battery_ok, loader_ops.get_wake_source,
        loader_ops.get_reset_source, platform.log, hb, hna, hre]
    · have : target_from_inputs flow_type s = target_from_reset
          (if s.reset_source = RESET_NOT_APPLICABLE then RESET_OS_INITIATED
            else s.reset_source)
          (((s.log .is_battery_ok).log .get_wake_source).log .get_reset_source) := by
        simp [target_from_inputs, loader_ops.is_battery_ok, loader_ops.get_wake_source,
          loader_ops.get_reset_source, platform.log, hb, hna, hre]
      rw [this]
      have h := target_from_reset_frame
        (if s.reset_source = RESET_NOT_APPLICABLE then RESET_OS_INITIATED
          else s.reset_source)
        (((s.log .is_battery_ok).log .get_wake_source).log .get_reset_source)
      generalize target_from_reset _ _ = r at h ⊢
      have hr : r.2.rtc_alarm_charging = s.rtc_alarm_charging := by rw [h]; rfl
      rw [hr]
      conv_lhs => rw [h]
      rfl
  · have : target_from_inputs flow_type s =
        target_from_off s.wake_source ((s.log .is_battery_ok).log .get_wake_source) := by
      simp [target_from_inputs, loader_ops.is_battery_ok, loader_ops.get_wake_source,
        platform.log, hb, he, hna]
    rw [this]
    conv_lhs => rw [target_from_off_frame]
    rfl

/-- C2: when the partition table check and the indicators succeed, every
`load_target` call of `start_boot_logic` is passed the resolver target with
unknown replaced by boot, which is not unknown; and the call is made, with the
merged command line, unless `do_cold_off` was invoked and kept control.  One
test of the validation loop is enough: `check_target` accepts at once. -/
theorem start_boot_logic_load_target_known
    (append_strings : cmdline_t → cmdline_t → cmdline_t) (fuel : Nat)
    (cmdline : cmdline_t) (s : platform)
    (hpt : EFI_ERROR s.partition_table_status = false)
    (hind : EFI_ERROR s.indicators_status = false) :
    ∃ new, (start_boot_logic append_strings (fuel + 1) cmdline s).2.calls = s.calls ++ new ∧
      (∀ t c, op_call.load_target t c ∈ new →
        t ≠ TARGET_UNKNOWN ∧
        t = (if (target_from_inputs s.flow_type (resolver_entry s)).1 = TARGET_UNKNOWN
              then TARGET_BOOT
              else (target_from_inputs s.flow_type (resolver_entry s)).1)) ∧
      (((target_from_inputs s.flow_type (resolver_entry s)).1 = TARGET_COLD_OFF →
          s.cold_off_returns = true) →
        op_call.load_target
          (if (target_from_inputs s.flow_type (resolver_entry s)).1 = TARGET_UNKNOWN
            then TARGET_BOOT
            else (target_from_inputs s.flow_type (resolver_entry s)).1)
          (append_strings s.extra_cmdline cmdline) ∈ new) := by
  obtain ⟨rnew, hr, hall⟩ := target_from_inputs_calls s.flow_type (resolver_entry s)
  have hf := target_from_inputs_frame s.flow_type (resolver_entry s)
  unfold start_boot_logic
  simp only [resolver_entry, platform.log, loader_ops.hook_bootlogic_begin,
    loader_ops.check_partition_table, loader_ops.read_flow_type, hpt] at hr hf ⊢
  generalize target_from_inputs _ _ = r at hr hf ⊢
  obtain ⟨tgt, s1⟩ := r
  simp only at hr hf
  have hcor : s1.cold_off_returns = s.cold_off_returns := by rw [hf]
  have hind1 : s1.indicators_status = s.indicators_status := by rw [hf]
  have hext : s1.extra_cmdline = s.extra_cmdline := by rw [hf]
  have hls : s1.load_status = s.load_status := by rw [hf]
  have hss : s1.save_status = s.save_status := by rw [hf]
  clear hf
  have hnl : ∀ t c, op_call.load_target t c ∉ rnew := fun t c h => by
    simpa [resolver_call] using hall _ h
  have hiff : tgt = TARGET_COLD_OFF ↔
      (if tgt = TARGET_UNKNOWN then TARGET_BOOT else tgt) = TARGET_COLD_OFF := by
    by_cases h : tgt = TARGET_UNKNOWN <;> simp [h]
  have hTne : (if tgt = TARGET_UNKNOWN then TARGET_BOOT else tgt) ≠ TARGET_UNKNOWN := by
    by_cases h : tgt = TARGET_UNKNOWN <;> simp [h]
  rw [hiff]
  generalize (if tgt = TARGET_UNKNOWN then TARGET_BOOT else tgt) = T at hTne ⊢
  by_cases hco : T = TARGET_COLD_OFF
  · subst hco
    rcases hret : s.cold_off_returns <;>
      rcases hsv : EFI_ERROR (s.save_status TARGET_COLD_OFF) <;>
      rcases hld : s.load_status TARGET_COLD_OFF (append_strings s.extra_cmdline cmdline) <;>
      simp [check_target_loop, check_target, EFI_SUCCESS, loader_ops.do_cold_off,
        loader_ops.display_splash, loader_ops.populate_indicators,
        loader_ops.save_target_mode, get_cmdline, loader_ops.get_extra_cmdline,
        loader_ops.hook_bootlogic_end, loader_ops.load_target, platform.log,
        hcor, hind1, hext, hls, hss, hind, hret, hr, hsv, hld] <;>
      intro t c h <;>
      first
        | exact absurd h (hnl t c)
        | (rcases h with h | ⟨rfl, -⟩
           · exact absurd h (hnl t c)
           · exact ⟨hTne, rfl⟩)
  · rcases hret : s.cold_off_returns <;>
      rcases hsv : EFI_ERROR (s.save_status T) <;>
      rcases hld : s.load_status T (append_strings s.extra_cmdline cmdline) <;>
      simp [check_target_loop, check_target, EFI_SUCCESS, loader_ops.do_cold_off,
        loader_ops.display_splash, loader_ops.populate_indicators,
        loader_ops.save_target_mode, get_cmdline, loader_ops.get_extra_cmdline,
        loader_ops.hook_bootlogic_end, loader_ops.load_target, platform.log,
        hco, hcor, hind1, hext, hls, hss, hind, hret, hr, hsv, hld] <;>
      intro t c h <;>
      first
        | exact absurd h (hnl t c)
        | (rcases h with h | ⟨rfl, -⟩
           · exact absurd h (hnl t c)
           · exact ⟨hTne, rfl⟩)

/-- Witness of C2: a platform at rest, where the resolver finds no target, so
that boot is loaded. -/
theorem start_boot_logic_load_target_known_witness :
    ∃ new, (start_boot_logic (fun _ c => c) (0 + 1) none quiet_platform).2.calls =
        quiet_platform.calls ++ new ∧
      (∀ t c, op_call.load_target t c ∈ new →
        t ≠ TARGET_UNKNOWN ∧
        t = (if (target_from_inputs quiet_platform.flow_type
                  (resolver_entry quiet_platform)).1 = TARGET_UNKNOWN
              then TARGET_BOOT
              else (target_from_inputs quiet_platform.flow_type
                  (resolver_entry quiet_platform)).1)) ∧
      (((target_from_inputs quiet_platform.flow_type
            (resolver_entry quiet_platform)).1 = TARGET_COLD_OFF →
          quiet_platform.cold_off_returns = true) →
        op_call.load_target
          (if (target_from_inputs quiet_platform.flow_type
                (resolver_entry quiet_platform)).1 = TARGET_UNKNOWN
            then TARGET_BOOT
            else (target_from_inputs quiet_platform.flow_type
                (resolver_entry quiet_platform)).1)
          ((fun _ c => c) quiet_platform.extra_cmdline none) ∈ new) :=
  start_boot_logic_load_target_known (fun _ c => c) 0 none quiet_platform
    (by decide) (by decide)

/-- C11: `boot_fastboot_combo` returns unknown when the fastboot combo key is
not held; when it is held it returns fastboot for battery level error, boot-os
or boot-charging and cold-off for battery level low; the wake source plays no
part. -/
theorem boot_fastboot_combo_table (ws : wake_sources) (s : platform) :
    (s.combo_fastboot = false → (boot_fastboot_combo ws s).1 = TARGET_UNKNOWN) ∧
    (s.combo_fastboot = true → s.battery_level = BATT_ERROR →
      (boot_fastboot_combo ws s).1 = TARGET_FASTBOOT) ∧
    (s.combo_fastboot = true → s.battery_level = BATT_BOOT_OS →
      (boot_fastboot_combo ws s).1 = TARGET_FASTBOOT) ∧
    (s.combo_fastboot = true → s.battery_level = BATT_BOOT_CHARGING →
      (boot_fastboot_combo ws s).1 = TARGET_FASTBOOT) ∧
    (s.combo_fastboot = true → s.battery_level = BATT_LOW →
      (boot_fastboot_combo ws s).1 = TARGET_COLD_OFF) ∧
    (∀ ws2 : wake_sources, boot_fastboot_combo ws2 s = boot_fastboot_combo ws s) := by
  refine ⟨?_, ?_, ?_, ?_, ?_, fun _ => rfl⟩ <;> intros <;>
    simp_all [boot_fastboot_combo, loader_ops.combo_key, loader_ops.get_battery_level,
      platform.log]

/-- Witness of C11: combo key held at each of the four battery levels, and
not held, on a platform woken by a charger. -/
theorem boot_fastboot_combo_table_witness :
    (boot_fastboot_combo WAKE_USB_CHARGER_INSERTED quiet_platform).1 = TARGET_UNKNOWN ∧
    (boot_fastboot_combo WAKE_USB_CHARGER_INSERTED
      { quiet_platform with combo_fastboot := true, battery_level := BATT_ERROR }).1
        = TARGET_FASTBOOT ∧
    (boot_fastboot_combo WAKE_USB_CHARGER_INSERTED
      { quiet_platform with combo_fastboot := true, battery_level := BATT_BOOT_OS }).1
        = TARGET_FASTBOOT ∧
    (boot_fastboot_combo WAKE_USB_CHARGER_INSERTED
      { quiet_platform with combo_fastboot := true, battery_level := BATT_BOOT_CHARGING }).1
        = TARGET_FASTBOOT ∧
    (boot_fastboot_combo WAKE_USB_CHARGER_INSERTED
      { quiet_platform with combo_fastboot := true, battery_level := BATT_LOW }).1
        = TARGET_COLD_OFF :=
  ⟨(boot_fastboot_combo_table WAKE_USB_CHARGER_INSERTED quiet_platform).1 rfl,
   (boot_fastboot_combo_table WAKE_USB_CHARGER_INSERTED
      { quiet_platform with combo_fastboot := true, battery_level := BATT_ERROR }).2.1
      rfl rfl,
   (boot_fastboot_combo_table WAKE_USB_CHARGER_INSERTED
      { quiet_platform with combo_fastboot := true, battery_level := BATT_BOOT_OS }).2.2.1
      rfl rfl,
   (boot_fastboot_combo_table WAKE_USB_CHARGER_INSERTED
      { quiet_platform with
          combo_fastboot := true, battery_level := BATT_BOOT_CHARGING }).2.2.2.1 rfl rfl,
   (boot_fastboot_combo_table WAKE_USB_CHARGER_INSERTED
      { quiet_platform with combo_fastboot := true, battery_level := BATT_LOW }).2.2.2.2.1
      rfl rfl⟩

/-- C12: `boot_power_key` returns unknown for every wake source other than
power-button-pressed; for power-button-pressed it returns boot at battery level
error or boot-os, charging at boot-charging, and cold-off at low. -/
theorem boot_power_key_table (ws : wake_sources) (s : platform) :
    (ws ≠ WAKE_POWER_BUTTON_PRESSED → (boot_power_key ws s).1 = TARGET_UNKNOWN) ∧
    (s.battery_level = BATT_ERROR →
      (boot_power_key WAKE_POWER_BUTTON_PRESSED s).1 = TARGET_BOOT) ∧
    (s.battery_level = BATT_BOOT_OS →
      (boot_power_key WAKE_POWER_BUTTON_PRESSED s).1 = TARGET_BOOT) ∧
    (s.battery_level = BATT_BOOT_CHARGING →
      (boot_power_key WAKE_POWER_BUTTON_PRESSED s).1 = TARGET_CHARGING) ∧
    (s.battery_level = BATT_LOW →
      (boot_power_key WAKE_POWER_BUTTON_PRESSED s).1 = TARGET_COLD_OFF) := by
  refine ⟨?_, ?_, ?_, ?_, ?_⟩ <;> intro h <;>
    simp [boot_power_key, loader_ops.get_battery_level, platform.log, h]

/-- Witness of C12: a charger wake gives unknown; the power button gives boot,
boot, charging and cold-off at the four battery levels. -/
theorem boot_power_key_table_witness :
    (boot_power_key WAKE_ACDC_CHARGER_INSERTED quiet_platform).1 = TARGET_UNKNOWN ∧
    (boot_power_key WAKE_POWER_BUTTON_PRESSED
      { quiet_platform with battery_level := BATT_ERROR }).1 = TARGET_BOOT ∧
    (boot_power_key WAKE_POWER_BUTTON_PRESSED
      { quiet_platform with battery_level := BATT_BOOT_OS }).1 = TARGET_BOOT ∧
    (boot_power_key WAKE_POWER_BUTTON_PRESSED
      { quiet_platform with battery_level := BATT_BOOT_CHARGING }).1 = TARGET_CHARGING ∧
    (boot_power_key WAKE_POWER_BUTTON_PRESSED
      { quiet_platform with battery_level := BATT_LOW }).1 = TARGET_COLD_OFF :=
  ⟨(boot_power_key_table WAKE_ACDC_CHARGER_INSERTED quiet_platform).1 (by decide),
   (boot_power_key_table WAKE_POWER_BUTTON_PRESSED
      { quiet_platform with battery_level := BATT_ERROR }).2.1 rfl,
   (boot_power_key_table WAKE_POWER_BUTTON_PRESSED
      { quiet_platform with battery_level := BATT_BOOT_OS }).2.2.1 rfl,
   (boot_power_key_table WAKE_POWER_BUTTON_PRESSED
      { quiet_platform with battery_level := BATT_BOOT_CHARGING }).2.2.2.1 rfl,
   (boot_power_key_table WAKE_POWER_BUTTON_PRESSED
      { quiet_platform with battery_level := BATT_LOW }).2.2.2.2 rfl⟩

/-- C13: with the fastboot combo key not held, `target_from_off` returns
charging for the wake sources USB-charger-inserted and AC/DC-charger-inserted
at every battery level, and unknown for every wake source other than
power-button-pressed and the two charger insertions. -/
theorem target_from_off_charger (ws : wake_sources) (s : platform)
    (hcombo : s.combo_fastboot = false) :
    (target_from_off WAKE_USB_CHARGER_INSERTED s).1 = TARGET_CHARGING ∧
    (target_from_off WAKE_ACDC_CHARGER_INSERTED s).1 = TARGET_CHARGING ∧
    (ws ≠ WAKE_POWER_BUTTON_PRESSED → ws ≠ WAKE_USB_CHARGER_INSERTED →
      ws ≠ WAKE_ACDC_CHARGER_INSERTED → (target_from_off ws s).1 = TARGET_UNKNOWN) ∧
    (boot_rtc ws s).1 = TARGET_UNKNOWN ∧
    (boot_battery_insertion ws s).1 = TARGET_UNKNOWN := by
  refine ⟨?_, ?_, ?_, rfl, rfl⟩
  · rw [target_from_off_target]; simp [hcombo]
  · rw [target_from_off_target]; simp [hcombo]
  · intro h1 h2 h3
    rw [target_from_off_target]; simp [hcombo, h1, h2, h3]

/-- Witness of C13: combo key not held, battery low: both charger insertions
give charging, and an unnamed wake source gives unknown. -/
theorem target_from_off_charger_witness :
    (target_from_off WAKE_USB_CHARGER_INSERTED
      { quiet_platform with battery_level := BATT_LOW }).1 = TARGET_CHARGING ∧
    (target_from_off WAKE_ACDC_CHARGER_INSERTED
      { quiet_platform with battery_level := BATT_LOW }).1 = TARGET_CHARGING ∧
    (target_from_off (WAKE_OTHER 1)
      { quiet_platform with battery_level := BATT_LOW }).1 = TARGET_UNKNOWN :=
  ⟨(target_from_off_charger (WAKE_OTHER 1)
      { quiet_platform with battery_level := BATT_LOW } rfl).1,
   (target_from_off_charger (WAKE_OTHER 1)
      { quiet_platform with battery_level := BATT_LOW } rfl).2.1,
   (target_from_off_charger (WAKE_OTHER 1)
      { quiet_platform with battery_level := BATT_LOW } rfl).2.2.1
      (by decide) (by decide) (by decide)⟩

/-- The RTC-alarm-charging flag after `target_from_off`: 0 after a power-button
override shutdown, untouched otherwise. -/
theorem target_from_off_rtc_alarm_charging (ws : wake_sources) (s : platform) :
    (target_from_off ws s).2.rtc_alarm_charging =
      if s.shutdown_source = SHTDWN_POWER_BUTTON_OVERRIDE then 0
      else s.rtc_alarm_charging := by
  rcases hk : s.combo_fastboot <;> rcases hl : s.battery_level <;>
    rcases hsd : s.shutdown_source <;> cases ws <;>
    simp [target_from_off, run_boot_case, boot_fastboot_combo, boot_power_key, boot_rtc,
      boot_battery_insertion, boot_charger_insertion, forced_shutdown,
      loader_ops.get_shutdown_source, loader_ops.combo_key, loader_ops.get_battery_level,
      loader_ops.set_rtc_alarm_charging, loader_ops.set_wdt_counter, platform.log,
      hk, hl, hsd]

/-- C14: after `target_from_off` on a platform whose shutdown source is
power-button override the stored counter is 0 and RTC-alarm-charging is
disabled (0), for every wake source, combo-key state and battery level, whether
a rule matches or not; on any other shutdown source both keep their values; and
the returned target is the same for every shutdown source `sd`. -/
theorem target_from_off_forced_shutdown (ws : wake_sources) (s : platform)
    (sd : shutdown_sources) :
    (s.shutdown_source = SHTDWN_POWER_BUTTON_OVERRIDE →
      (target_from_off ws s).2.wdt_counter = 0 ∧
      (target_from_off ws s).2.rtc_alarm_charging = 0 ∧
      op_call.set_rtc_alarm_charging 0 ∈ (target_from_off ws s).2.calls ∧
      op_call.set_wdt_counter 0 ∈ (target_from_off ws s).2.calls) ∧
    (s.shutdown_source ≠ SHTDWN_POWER_BUTTON_OVERRIDE →
      (target_from_off ws s).2.wdt_counter = s.wdt_counter ∧
      (target_from_off ws s).2.rtc_alarm_charging = s.rtc_alarm_charging ∧
      (∀ c, c ∈ (target_from_off ws s).2.calls → c ∉ s.calls →
        c = .get_shutdown_source ∨ c = .combo_key ∨ c = .get_battery_level)) ∧
    (target_from_off ws { s with shutdown_source := sd }).1 = (target_from_off ws s).1 := by
  refine ⟨?_, ?_, ?_⟩
  · intro h
    rw [target_from_off_wdt_counter, target_from_off_rtc_alarm_charging,
      target_from_off_calls]
    simp [h]
  · intro h
    rw [target_from_off_wdt_counter, target_from_off_rtc_alarm_charging,
      target_from_off_calls]
    refine ⟨by simp [h], by simp [h], ?_⟩
    intro c hc hn
    by_cases h2 : s.combo_fastboot = true ∨ ws = WAKE_POWER_BUTTON_PRESSED <;>
      simp [h, h2, hn] at hc <;> tauto
  · rw [target_from_off_target, target_from_off_target]

/-- Witness of C14: power button pressed at boot-os level with counter 2 and
RTC-alarm-charging enabled, after a power-button override shutdown and after
another shutdown. -/
theorem target_from_off_forced_shutdown_witness :
    ((target_from_off WAKE_POWER_BUTTON_PRESSED
        { quiet_platform with
          shutdown_source := SHTDWN_POWER_BUTTON_OVERRIDE,
          wdt_counter := 2, rtc_alarm_charging := 1 }).2.wdt_counter = 0 ∧
      (target_from_off WAKE_POWER_BUTTON_PRESSED
        { quiet_platform with
          shutdown_source := SHTDWN_POWER_BUTTON_OVERRIDE,
          wdt_counter := 2, rtc_alarm_charging := 1 }).2.rtc_alarm_charging = 0) ∧
    ((target_from_off WAKE_POWER_BUTTON_PRESSED
        { quiet_platform with wdt_counter := 2, rtc_alarm_charging := 1 }).2.wdt_counter = 2 ∧
      (target_from_off WAKE_POWER_BUTTON_PRESSED
        { quiet_platform with
          wdt_counter := 2, rtc_alarm_charging := 1 }).2.rtc_alarm_charging = 1) :=
  ⟨⟨((target_from_off_forced_shutdown WAKE_POWER_BUTTON_PRESSED
        { quiet_platform with
          shutdown_source := SHTDWN_POWER_BUTTON_OVERRIDE,
          wdt_counter := 2, rtc_alarm_charging := 1 } (SHTDWN_OTHER 0)).1 rfl).1,
    ((target_from_off_forced_shutdown WAKE_POWER_BUTTON_PRESSED
        { quiet_platform with
          shutdown_source := SHTDWN_POWER_BUTTON_OVERRIDE,
          wdt_counter := 2, rtc_alarm_charging := 1 } (SHTDWN_OTHER 0)).1 rfl).2.1⟩,
   ⟨((target_from_off_forced_shutdown WAKE_POWER_BUTTON_PRESSED
        { quiet_platform with wdt_counter := 2, rtc_alarm_charging := 1 }
        SHTDWN_POWER_BUTTON_OVERRIDE).2.1 (by decide)).1,
    ((target_from_off_forced_shutdown WAKE_POWER_BUTTON_PRESSED
        { quiet_platform with wdt_counter := 2, rtc_alarm_charging := 1 }
        SHTDWN_POWER_BUTTON_OVERRIDE).2.1 (by decide)).2.1⟩⟩

/-- C15: for reset source OS-initiated or forced, `target_from_reset` returns
the stored target (unknown when the stored target is unknown), leaves the
counter as it was and makes no call but `get_target_mode`. -/
theorem target_from_reset_resume (rs : reset_sources) (s : platform)
    (hrs : rs = RESET_OS_INITIATED ∨ rs = RESET_FORCED) :
    (target_from_reset rs s).1 = s.target_mode ∧
    (target_from_reset rs s).2.wdt_counter = s.wdt_counter ∧
    (target_from_reset rs s).2.target_mode = s.target_mode ∧
    (target_from_reset rs s).2.calls = s.calls ++ [.get_target_mode] := by
  by_cases ht : s.target_mode = TARGET_UNKNOWN <;> rcases hrs with h | h <;>
    simp [target_from_reset, run_boot_case, boot_fw_update, boot_reset, boot_watchdog,
      loader_ops.get_target_mode, platform.log, h, ht]

/-- Witness of C15: a forced reset with stored target fastboot and counter 2,
and an OS-initiated reset with stored target unknown. -/
theorem target_from_reset_resume_witness :
    ((target_from_reset RESET_FORCED
        { quiet_platform with target_mode := TARGET_FASTBOOT, wdt_counter := 2 }).1
        = TARGET_FASTBOOT ∧
      (target_from_reset RESET_FORCED
        { quiet_platform with target_mode := TARGET_FASTBOOT, wdt_counter := 2 }).2.wdt_counter
        = 2) ∧
    (target_from_reset RESET_OS_INITIATED quiet_platform).1 = TARGET_UNKNOWN :=
  ⟨⟨(target_from_reset_resume RESET_FORCED
        { quiet_platform with target_mode := TARGET_FASTBOOT, wdt_counter := 2 }
        (Or.inr rfl)).1,
    (target_from_reset_resume RESET_FORCED
        { quiet_platform with target_mode := TARGET_FASTBOOT, wdt_counter := 2 }
        (Or.inr rfl)).2.1⟩,
   (target_from_reset_resume RESET_OS_INITIATED quiet_platform (Or.inl rfl)).1⟩

/-- The counter after `target_from_reset`: the watchdog rule writes it on a
watchdog-class reset source, and nothing else does. -/
theorem target_from_reset_wdt_counter (rs : reset_sources) (s : platform) :
    (target_from_reset rs s).2.wdt_counter =
      if watchdog_class rs then
        (if int_wrap (s.wdt_counter + 1) ≥ 3 then 0 else int_wrap (s.wdt_counter + 1))
      else s.wdt_counter := by
  by_cases ht : s.target_mode = TARGET_UNKNOWN <;>
  by_cases hc : int_wrap (s.wdt_counter + 1) ≥ 3 <;>
  cases rs <;>
  simp [target_from_reset, run_boot_case, boot_fw_update, boot_reset, boot_watchdog,
    loader_ops.get_wdt_counter, loader_ops.get_target_mode, loader_ops.set_wdt_counter,
    platform.log, watchdog_class, ht, hc]

/-- The counter after a resolver run, in closed form. -/
theorem target_from_inputs_wdt_counter (flow_type : flow_types) (s : platform) :
    (target_from_inputs flow_type s).2.wdt_counter =
      if s.battery_ok = true ∧ s.wake_source = WAKE_NOT_APPLICABLE ∧
          watchdog_class s.reset_source then
        (if int_wrap (s.wdt_counter + 1) ≥ 3 then 0 else int_wrap (s.wdt_counter + 1))
      else if s.battery_ok = true ∧ s.wake_source ≠ WAKE_NOT_APPLICABLE ∧
          s.wake_source ≠ WAKE_ERROR ∧
          s.shutdown_source = SHTDWN_POWER_BUTTON_OVERRIDE then 0
      else s.wdt_counter := by
  by_cases hb : s.battery_ok = true
  swap
  · simp [target_from_inputs, loader_ops.is_battery_ok, platform.log, hb]
  by_cases he : s.wake_source = WAKE_ERROR
  · simp [target_from_inputs, loader_ops.is_battery_ok, loader_ops.get_wake_source,
      platform.log, hb, he]
  by_cases hna : s.wake_source = WAKE_NOT_APPLICABLE
  · by_cases hre : s.reset_source = RESET_ERROR
    · simp [target_from_inputs, loader_ops.is_battery_ok, loader_ops.get_wake_source,
        loader_ops.get_reset_source, platform.log, watchdog_class, hb, hna, hre]
    · have : target_from_inputs flow_type s = target_from_reset
          (if s.reset_source = RESET_NOT_APPLICABLE then RESET_OS_INITIATED
            else s.reset_source)
          (((s.log .is_battery_ok).log .get_wake_source).log .get_reset_source) := by
        simp [target_from_inputs, loader_ops.is_battery_ok, loader_ops.get_wake_source,
          loader_ops.get_reset_source, platform.log, hb, hna, hre]
      rw [this, target_from_reset_wdt_counter]
      by_cases hn : s.reset_source = RESET_NOT_APPLICABLE
      · simp [platform.log, watchdog_class, hb, hna, hn]
      · simp [platform.log, hb, hna, hn]
  · have : target_from_inputs flow_type s =
        target_from_off s.wake_source ((s.log .is_battery_ok).log .get_wake_source) := by
      simp [target_from_inputs, loader_ops.is_battery_ok, loader_ops.get_wake_source,
        platform.log, hb, he, hna]
    rw [this, target_from_off_wdt_counter]
    simp [platform.log, hb, he, hna]

/-- C16 as stated fails at two stored counters.  From counter -1, a kernel
watchdog reset run (battery ok, no wake source) changes the counter to 0
though the watchdog rule did not escalate (`-1 + 1 ≥ 3` is false) and the wake
chain did not run.  From counter `INT_MAX`, the same run leaves `INT_MIN`,
which is none of `c`, `c + 1` and 0. -/
theorem wdt_counter_steps_refuted :
    ((target_from_inputs 0
        { quiet_platform with
          reset_source := RESET_KERNEL_WATCHDOG, wdt_counter := -1 }).2.wdt_counter = 0 ∧
      (-1 : Int) ≠ 0 ∧ ¬ ((-1 : Int) + 1 ≥ 3) ∧
      ({ quiet_platform with
          reset_source := RESET_KERNEL_WATCHDOG, wdt_counter := -1 } : platform).wake_source
        = WAKE_NOT_APPLICABLE) ∧
    ((target_from_inputs 0
        { quiet_platform with
          reset_source := RESET_KERNEL_WATCHDOG,
          wdt_counter := 2147483647 }).2.wdt_counter = -2147483648 ∧
      (-2147483648 : Int) ≠ 2147483647 ∧ (-2147483648 : Int) ≠ 2147483647 + 1 ∧
      (-2147483648 : Int) ≠ 0) := by
  decide

/-- C16 (amended): after a resolver run from a stored counter `c` in the range
of a C `int` other than -1 and `INT_MAX`, the stored counter is `c`, `c + 1`
or 0; it is `c + 1` only if the reset chain ran on a watchdog-class reset
source with `c + 1 < 3`; and it has changed to 0 only if the watchdog rule
escalated (watchdog-class reset source, `c + 1 ≥ 3`) or the wake chain ran
after a power-button override shutdown. -/
theorem target_from_inputs_counter_steps (flow_type : flow_types) (s : platform)
    (hmin : INT_MIN ≤ s.wdt_counter) (hmax : s.wdt_counter < INT_MAX)
    (hc : s.wdt_counter ≠ -1) :
    ((target_from_inputs flow_type s).2.wdt_counter = s.wdt_counter ∨
      (target_from_inputs flow_type s).2.wdt_counter = s.wdt_counter + 1 ∨
      (target_from_inputs flow_type s).2.wdt_counter = 0) ∧
    ((target_from_inputs flow_type s).2.wdt_counter = s.wdt_counter + 1 →
      (s.battery_ok = true ∧ s.wake_source = WAKE_NOT_APPLICABLE ∧
        watchdog_class s.reset_source) ∧ s.wdt_counter + 1 < 3) ∧
    ((target_from_inputs flow_type s).2.wdt_counter = 0 → s.wdt_counter ≠ 0 →
      ((s.battery_ok = true ∧ s.wake_source = WAKE_NOT_APPLICABLE ∧
          watchdog_class s.reset_source) ∧ s.wdt_counter + 1 ≥ 3) ∨
      (s.battery_ok = true ∧ s.wake_source ≠ WAKE_NOT_APPLICABLE ∧
        s.wake_source ≠ WAKE_ERROR ∧
        s.shutdown_source = SHTDWN_POWER_BUTTON_OVERRIDE)) := by
  have hw : int_wrap (s.wdt_counter + 1) = s.wdt_counter + 1 :=
    int_wrap_of_int _ (by unfold INT_MIN at *; omega) (by unfold INT_MAX at *; omega)
  rw [target_from_inputs_wdt_counter, hw]
  by_cases h1 : s.battery_ok = true ∧ s.wake_source = WAKE_NOT_APPLICABLE ∧
      watchdog_class s.reset_source
  · rw [if_pos h1]
    by_cases h3 : s.wdt_counter + 1 ≥ 3
    · rw [if_pos h3]
      exact ⟨Or.inr (Or.inr rfl), fun h => by omega, fun _ _ => Or.inl ⟨h1, h3⟩⟩
    · rw [if_neg h3]
      exact ⟨Or.inr (Or.inl rfl), fun _ => ⟨h1, by omega⟩, fun h _ => by omega⟩
  · rw [if_neg h1]
    by_cases h2 : s.battery_ok = true ∧ s.wake_source ≠ WAKE_NOT_APPLICABLE ∧
        s.wake_source ≠ WAKE_ERROR ∧ s.shutdown_source = SHTDWN_POWER_BUTTON_OVERRIDE
    · rw [if_pos h2]
      exact ⟨Or.inr (Or.inr rfl), fun h => by omega, fun _ _ => Or.inr h2⟩
    · rw [if_neg h2]
      exact ⟨Or.inl rfl, fun h => by omega, fun h h0 => absurd h h0⟩

/-- Witness of C16 (amended): a kernel watchdog reset from counter 1 stores 2,
and one from counter 2 stores 0. -/
theorem target_from_inputs_counter_steps_witness :
    (((target_from_inputs 0
          { quiet_platform with
            reset_source := RESET_KERNEL_WATCHDOG, wdt_counter := 1 }).2.wdt_counter = 1 ∨
        (target_from_inputs 0
          { quiet_platform with
            reset_source := RESET_KERNEL_WATCHDOG, wdt_counter := 1 }).2.wdt_counter = 1 + 1 ∨
        (target_from_inputs 0
          { quiet_platform with
            reset_source := RESET_KERNEL_WATCHDOG, wdt_counter := 1 }).2.wdt_counter = 0) ∧
      (target_from_inputs 0
        { quiet_platform with
          reset_source := RESET_KERNEL_WATCHDOG, wdt_counter := 1 }).2.wdt_counter = 2) ∧
    (((target_from_inputs 0
          { quiet_platform with
            reset_source := RESET_KERNEL_WATCHDOG, wdt_counter := 2 }).2.wdt_counter = 2 ∨
        (target_from_inputs 0
          { quiet_platform with
            reset_source := RESET_KERNEL_WATCHDOG, wdt_counter := 2 }).2.wdt_counter = 2 + 1 ∨
        (target_from_inputs 0
          { quiet_platform with
            reset_source := RESET_KERNEL_WATCHDOG, wdt_counter := 2 }).2.wdt_counter = 0) ∧
      (target_from_inputs 0
        { quiet_platform with
          reset_source := RESET_KERNEL_WATCHDOG, wdt_counter := 2 }).2.wdt_counter = 0) :=
  ⟨⟨(target_from_inputs_counter_steps 0
        { quiet_platform with reset_source := RESET_KERNEL_WATCHDOG, wdt_counter := 1 }
        (by decide) (by decide) (by decide)).1, by decide⟩,
   ⟨(target_from_inputs_counter_steps 0
        { quiet_platform with reset_source := RESET_KERNEL_WATCHDOG, wdt_counter := 2 }
        (by decide) (by decide) (by decide)).1, by decide⟩⟩

/-- The calls made by `target_from_reset`, in order. -/
theorem target_from_reset_calls_eq (rs : reset_sources) (s : platform) :
    (target_from_reset rs s).2.calls =
      s.calls ++
        (if rs = RESET_OS_INITIATED ∨ rs = RESET_FORCED then [op_call.get_target_mode]
         else if watchdog_class rs then
          [op_call.get_wdt_counter, op_call.get_target_mode,
            op_call.set_wdt_counter
              (if int_wrap (s.wdt_counter + 1) ≥ 3 then 0
               else int_wrap (s.wdt_counter + 1))]
         else []) := by
  by_cases ht : s.target_mode = TARGET_UNKNOWN <;>
  by_cases hc : int_wrap (s.wdt_counter + 1) ≥ 3 <;>
  cases rs <;>
  simp [target_from_reset, run_boot_case, boot_fw_update, boot_reset, boot_watchdog,
    loader_ops.get_wdt_counter, loader_ops.get_target_mode, loader_ops.set_wdt_counter,
    platform.log, watchdog_class, ht, hc]

/-- The last call of a resolver run from a non-negative counter below
`INT_MAX` is `set_wdt_counter(0)` exactly when the run is a watchdog-class
reset run whose incremented counter reaches 3. -/
theorem escalates_iff (flow_type : flow_types) (s : platform) (hc : 0 ≤ s.wdt_counter)
    (hmax : s.wdt_counter < INT_MAX) :
    escalates flow_type s ↔ watchdog_run s ∧ s.wdt_counter + 1 ≥ 3 := by
  have hw : int_wrap (s.wdt_counter + 1) = s.wdt_counter + 1 :=
    int_wrap_of_int _ (by unfold INT_MIN; omega) (by unfold INT_MAX at *; omega)
  unfold escalates watchdog_run
  by_cases hb : s.battery_ok = true
  swap
  · simp [target_from_inputs, loader_ops.is_battery_ok, platform.log, hb]
  by_cases he : s.wake_source = WAKE_ERROR
  · simp [target_from_inputs, loader_ops.is_battery_ok, loader_ops.get_wake_source,
      platform.log, hb, he]
  by_cases hna : s.wake_source = WAKE_NOT_APPLICABLE
  · by_cases hre : s.reset_source = RESET_ERROR
    · simp [target_from_inputs, loader_ops.is_battery_ok, loader_ops.get_wake_source,
        loader_ops.get_reset_source, platform.log, watchdog_class, hb, hna, hre]
    · have : target_from_inputs flow_type s = target_from_reset
          (if s.reset_source = RESET_NOT_APPLICABLE then RESET_OS_INITIATED
            else s.reset_source)
          (((s.log .is_battery_ok).log .get_wake_source).log .get_reset_source) := by
        simp [target_from_inputs, loader_ops.is_battery_ok, loader_ops.get_wake_source,
          loader_ops.get_reset_source, platform.log, hb, hna, hre]
      rw [this, target_from_reset_calls_eq]
      simp only [platform.log, hw]
      by_cases h3 : s.wdt_counter + 1 ≥ 3 <;>
      rcases hrs : s.reset_source <;>
      simp [platform.log, watchdog_class, hb, hna, hrs, h3] <;> omega
  · have : target_from_inputs flow_type s =
        target_from_off s.wake_source ((s.log .is_battery_ok).log .get_wake_source) := by
      simp [target_from_inputs, loader_ops.is_battery_ok, loader_ops.get_wake_source,
        platform.log, hb, he, hna]
    rw [this, target_from_off_calls]
    by_cases h1 : s.shutdown_source = SHTDWN_POWER_BUTTON_OVERRIDE <;>
      by_cases h2 : s.combo_fastboot = true ∨ s.wake_source = WAKE_POWER_BUTTON_PRESSED <;>
      simp [platform.log, hna, h1, h2]

/-- One more boot after a sequence of boots. -/
theorem resolver_runs_concat (flow_type : flow_types) (boots : List platform)
    (b s : platform) :
    resolver_runs flow_type (boots ++ [b]) s =
      (target_from_inputs flow_type (next_boot b (resolver_runs flow_type boots s))).2 := by
  simp [resolver_runs, List.foldl_append]

/-- The counter after one boot that follows no power-button override shutdown:
a watchdog-class reset run increments it as a C `int` and stores 0 instead
when the result reaches 3, and every other run leaves it alone. -/
theorem next_boot_counter (flow_type : flow_types) (b prev : platform)
    (hno : b.shutdown_source ≠ SHTDWN_POWER_BUTTON_OVERRIDE) :
    (target_from_inputs flow_type (next_boot b prev)).2.wdt_counter =
      if watchdog_run b then
        (if int_wrap (prev.wdt_counter + 1) ≥ 3 then 0
         else int_wrap (prev.wdt_counter + 1))
      else prev.wdt_counter := by
  rw [target_from_inputs_wdt_counter]
  by_cases h : watchdog_run b
  · have h2 : (next_boot b prev).battery_ok = true ∧
        (next_boot b prev).wake_source = WAKE_NOT_APPLICABLE ∧
        watchdog_class (next_boot b prev).reset_source := h
    rw [if_pos h2, if_pos h]; rfl
  · have h2 : ¬ ((next_boot b prev).battery_ok = true ∧
        (next_boot b prev).wake_source = WAKE_NOT_APPLICABLE ∧
        watchdog_class (next_boot b prev).reset_source) := h
    have h3 : ¬ ((next_boot b prev).battery_ok = true ∧
        (next_boot b prev).wake_source ≠ WAKE_NOT_APPLICABLE ∧
        (next_boot b prev).wake_source ≠ WAKE_ERROR ∧
        (next_boot b prev).shutdown_source = SHTDWN_POWER_BUTTON_OVERRIDE) :=
      fun h4 => hno h4.2.2.2
    rw [if_neg h2, if_neg h3, if_neg h]; rfl

/-- From counter 0 and with no power-button override shutdown, the counter
after a sequence of boots is the number of watchdog-class reset runs among
them, modulo 3. -/
theorem resolver_runs_counter (flow_type : flow_types) (boots : List platform)
    (s : platform) (h0 : s.wdt_counter = 0)
    (hno : ∀ x ∈ boots, x.shutdown_source ≠ SHTDWN_POWER_BUTTON_OVERRIDE) :
    (resolver_runs flow_type boots s).wdt_counter =
      ((boots.countP (fun x => decide (watchdog_run x)) % 3 : Nat) : Int) := by
  induction boots using List.reverseRecOn with
  | nil => simpa [resolver_runs] using h0
  | append_singleton l a ih =>
    have ihl := ih (fun x hx => hno x (List.mem_append_left _ hx))
    have ha := hno a (List.mem_append_right _ (List.mem_singleton_self a))
    rw [resolver_runs_concat, next_boot_counter flow_type a _ ha, ihl,
      List.countP_append]
    unfold int_wrap
    by_cases hw : watchdog_run a
    · simp only [hw, if_true, List.countP_cons, List.countP_nil, decide_True]
      split_ifs <;> omega
    · simp only [hw, if_false, List.countP_cons, List.countP_nil, decide_False]
      simp

/-- C17 as stated fails: after two kernel watchdog resets and an OS-initiated
reset, all from counter 0 with stored target boot and no power-button override
shutdown, the counter is still 2, and a further kernel watchdog reset escalates
to recovery although the run immediately before it was not a watchdog-class
reset. -/
theorem watchdog_count_survives_os_reset :
    interrupted_boots.map (fun x => decide (watchdog_run x)) = [true, true, false] ∧
    interrupted_boots.map (fun x => x.shutdown_source) =
      [SHTDWN_OTHER 0, SHTDWN_OTHER 0, SHTDWN_OTHER 0] ∧
    (resolver_runs 0 interrupted_boots quiet_platform).wdt_counter = 2 ∧
    escalates 0
      (next_boot
        { quiet_platform with
          target_mode := TARGET_BOOT, reset_source := RESET_KERNEL_WATCHDOG }
        (resolver_runs 0 interrupted_boots quiet_platform)) ∧
    (target_from_inputs 0
      (next_boot
        { quiet_platform with
          target_mode := TARGET_BOOT, reset_source := RESET_KERNEL_WATCHDOG }
        (resolver_runs 0 interrupted_boots quiet_platform))).1 = TARGET_RECOVERY := by
  decide

/-- C17 (amended): from counter 0 and with no power-button override shutdown,
the stored counter before a run is the number of earlier watchdog-class reset
runs modulo 3, whatever runs lie between them; the watchdog rule escalates on a
run exactly when that run is a watchdog-class reset run and that number is 2
modulo 3, so only if that run and at least two earlier runs were watchdog-class
reset runs, and it then returns `fallback_target` of the stored target; a run
that is not a watchdog-class reset run leaves the counter as it is. -/
theorem watchdog_counts_since_cleared (flow_type : flow_types) (boots : List platform)
    (b s : platform) (h0 : s.wdt_counter = 0)
    (hno : ∀ x ∈ boots, x.shutdown_source ≠ SHTDWN_POWER_BUTTON_OVERRIDE) :
    (resolver_runs flow_type boots s).wdt_counter =
      ((boots.countP (fun x => decide (watchdog_run x)) % 3 : Nat) : Int) ∧
    (escalates flow_type (next_boot b (resolver_runs flow_type boots s)) ↔
      watchdog_run b ∧ boots.countP (fun x => decide (watchdog_run x)) % 3 = 2) ∧
    (escalates flow_type (next_boot b (resolver_runs flow_type boots s)) →
      watchdog_run b ∧ 2 ≤ boots.countP (fun x => decide (watchdog_run x)) ∧
      (target_from_inputs flow_type (next_boot b (resolver_runs flow_type boots s))).1 =
        fallback_target b.target_mode) ∧
    (¬ watchdog_run b → b.shutdown_source ≠ SHTDWN_POWER_BUTTON_OVERRIDE →
      (target_from_inputs flow_type
        (next_boot b (resolver_runs flow_type boots s))).2.wdt_counter =
        (resolver_runs flow_type boots s).wdt_counter) := by
  have hcnt := resolver_runs_counter flow_type boots s h0 hno
  have hpos : 0 ≤ (next_boot b (resolver_runs flow_type boots s)).wdt_counter := by
    show 0 ≤ (resolver_runs flow_type boots s).wdt_counter
    rw [hcnt]; exact Int.natCast_nonneg _
  have hlt : (next_boot b (resolver_runs flow_type boots s)).wdt_counter < INT_MAX := by
    show (resolver_runs flow_type boots s).wdt_counter < INT_MAX
    rw [hcnt]; unfold INT_MAX; omega
  have hiff := escalates_iff flow_type (next_boot b (resolver_runs flow_type boots s))
    hpos hlt
  have hesc : escalates flow_type (next_boot b (resolver_runs flow_type boots s)) ↔
      watchdog_run b ∧ boots.countP (fun x => decide (watchdog_run x)) % 3 = 2 := by
    rw [hiff]
    show watchdog_run b ∧ (resolver_runs flow_type boots s).wdt_counter + 1 ≥ 3 ↔ _
    rw [hcnt]
    constructor
    · rintro ⟨hw, h3⟩; exact ⟨hw, by omega⟩
    · rintro ⟨hw, h3⟩; exact ⟨hw, by omega⟩
  refine ⟨hcnt, hesc, ?_, ?_⟩
  · intro he
    obtain ⟨hw, h2⟩ := hesc.1 he
    refine ⟨hw, by omega, ?_⟩
    have hrun := (target_from_inputs_watchdog_run_in_range flow_type
      (next_boot b (resolver_runs flow_type boots s)) hw.1 hw.2.1 hw.2.2
      (by unfold INT_MIN; omega) hlt).1
    rw [hrun]
    have h3 : (next_boot b (resolver_runs flow_type boots s)).wdt_counter + 1 ≥ 3 := by
      show (resolver_runs flow_type boots s).wdt_counter + 1 ≥ 3
      rw [hcnt]; omega
    rw [if_pos h3]; rfl
  · intro hw hsd
    rw [next_boot_counter flow_type b _ hsd, if_neg hw]

/-- Witness of C17 (amended): the three boots of `interrupted_boots` followed
by a kernel watchdog reset. -/
theorem watchdog_counts_since_cleared_witness :
    (resolver_runs 0 interrupted_boots quiet_platform).wdt_counter =
      ((interrupted_boots.countP (fun x => decide (watchdog_run x)) % 3 : Nat) : Int) ∧
    (escalates 0
        (next_boot { quiet_platform with reset_source := RESET_KERNEL_WATCHDOG }
          (resolver_runs 0 interrupted_boots quiet_platform)) ↔
      watchdog_run { quiet_platform with reset_source := RESET_KERNEL_WATCHDOG } ∧
        interrupted_boots.countP (fun x => decide (watchdog_run x)) % 3 = 2) :=
  ⟨(watchdog_counts_since_cleared 0 interrupted_boots
      { quiet_platform with reset_source := RESET_KERNEL_WATCHDOG } quiet_platform rfl
      (by decide)).1,
   (watchdog_counts_since_cleared 0 interrupted_boots
      { quiet_platform with reset_source := RESET_KERNEL_WATCHDOG } quiet_platform rfl
      (by decide)).2.1⟩

/-- A run of `start_boot_logic` whose partition table check succeeds, in
closed form: the result, the calls that follow the resolver, and the saved
target. -/
theorem start_boot_logic_run
    (append_strings : cmdline_t → cmdline_t → cmdline_t) (fuel : Nat)
    (cmdline : cmdline_t) (s : platform)
    (hpt : EFI_ERROR s.partition_table_status = false) :
    (start_boot_logic append_strings (fuel + 1) cmdline s).1 =
      (if resolved_target s = TARGET_COLD_OFF ∧ s.cold_off_returns = false then
        boot_result.no_return
      else if EFI_ERROR s.indicators_status = true then
        boot_result.returned s.indicators_status
      else
        match s.load_status (resolved_target s) (append_strings s.extra_cmdline cmdline) with
        | some ret => boot_result.returned ret
        | none => boot_result.no_return) ∧
    (start_boot_logic append_strings (fuel + 1) cmdline s).2.calls =
      (target_from_inputs s.flow_type (resolver_entry s)).2.calls ++
        ((if resolved_target s = TARGET_COLD_OFF then [op_call.do_cold_off] else []) ++
          (if resolved_target s = TARGET_COLD_OFF ∧ s.cold_off_returns = false then []
           else
            [op_call.display_splash, op_call.populate_indicators] ++
              (if EFI_ERROR s.indicators_status = true then []
               else
                [op_call.save_target_mode (resolved_target s), op_call.get_extra_cmdline,
                  op_call.hook_bootlogic_end,
                  op_call.load_target (resolved_target s)
                    (append_strings s.extra_cmdline cmdline)]))) ∧
    (start_boot_logic append_strings (fuel + 1) cmdline s).2.saved_target_mode =
      (if (resolved_target s = TARGET_COLD_OFF ∧ s.cold_off_returns = false) ∨
          EFI_ERROR s.indicators_status = true ∨
          EFI_ERROR (s.save_status (resolved_target s)) = true then s.saved_target_mode
       else some (resolved_target s)) := by
  have hf := target_from_inputs_frame s.flow_type (resolver_entry s)
  unfold start_boot_logic resolved_target
  simp only [resolver_entry, platform.log, loader_ops.hook_bootlogic_begin,
    loader_ops.check_partition_table, loader_ops.read_flow_type, hpt] at hf ⊢
  generalize target_from_inputs _ _ = r at hf ⊢
  obtain ⟨tgt, s1⟩ := r
  simp only at hf
  have hcor : s1.cold_off_returns = s.cold_off_returns := by rw [hf]
  have hind1 : s1.indicators_status = s.indicators_status := by rw [hf]
  have hext : s1.extra_cmdline = s.extra_cmdline := by rw [hf]
  have hls : s1.load_status = s.load_status := by rw [hf]
  have hss : s1.save_status = s.save_status := by rw [hf]
  have hsv1 : s1.saved_target_mode = s.saved_target_mode := by rw [hf]
  clear hf
  generalize (if tgt = TARGET_UNKNOWN then TARGET_BOOT else tgt) = T
  by_cases hco : T = TARGET_COLD_OFF
  · subst hco
    rcases hret : s.cold_off_returns <;>
      rcases hie : EFI_ERROR s.indicators_status <;>
      rcases hsv : EFI_ERROR (s.save_status TARGET_COLD_OFF) <;>
      rcases hld : s.load_status TARGET_COLD_OFF (append_strings s.extra_cmdline cmdline) <;>
      simp [check_target_loop, check_target, EFI_SUCCESS, loader_ops.do_cold_off,
        loader_ops.display_splash, loader_ops.populate_indicators,
        loader_ops.save_target_mode, get_cmdline, loader_ops.get_extra_cmdline,
        loader_ops.hook_bootlogic_end, loader_ops.load_target, platform.log,
        hcor, hind1, hext, hls, hss, hsv1, hret, hie, hsv, hld]
  · rcases hret : s.cold_off_returns <;>
      rcases hie : EFI_ERROR s.indicators_status <;>
      rcases hsv : EFI_ERROR (s.save_status T) <;>
      rcases hld : s.load_status T (append_strings s.extra_cmdline cmdline) <;>
      simp [check_target_loop, check_target, EFI_SUCCESS, loader_ops.do_cold_off,
        loader_ops.display_splash, loader_ops.populate_indicators,
        loader_ops.save_target_mode, get_cmdline, loader_ops.get_extra_cmdline,
        loader_ops.hook_bootlogic_end, loader_ops.load_target, platform.log,
        hco, hcor, hind1, hext, hls, hss, hsv1, hret, hie, hsv, hld]

/-- C18: when the partition table check returns an error status,
`start_boot_logic` returns that status after the begin hook and the check, and
nothing else: no further call is made, and the platform, its counter included,
is otherwise as it was. -/
theorem start_boot_logic_partition_error
    (append_strings : cmdline_t → cmdline_t → cmdline_t) (fuel : Nat)
    (cmdline : cmdline_t) (s : platform)
    (hpt : EFI_ERROR s.partition_table_status = true) :
    start_boot_logic append_strings fuel cmdline s =
      (boot_result.returned s.partition_table_status,
        { s with calls := s.calls ++ [.hook_bootlogic_begin, .check_partition_table] }) ∧
    (start_boot_logic append_strings fuel cmdline s).2.calls =
      s.calls ++ [.hook_bootlogic_begin, .check_partition_table] ∧
    (start_boot_logic append_strings fuel cmdline s).2.wdt_counter = s.wdt_counter ∧
    (start_boot_logic append_strings fuel cmdline s).2.rtc_alarm_charging =
      s.rtc_alarm_charging ∧
    (start_boot_logic append_strings fuel cmdline s).2.saved_target_mode =
      s.saved_target_mode := by
  simp [start_boot_logic, loader_ops.hook_bootlogic_begin, loader_ops.check_partition_table,
    platform.log, hpt]

/-- Witness of C18: the partition table check fails with `EFI_LOAD_ERROR` on a
platform woken by the power button after a watchdog reset. -/
theorem start_boot_logic_partition_error_witness :
    (start_boot_logic (fun _ c => c) 1 none
      { quiet_platform with
        partition_table_status := 2 ^ 63 + 1,
        reset_source := RESET_KERNEL_WATCHDOG, wdt_counter := 1 }).1 =
      boot_result.returned (2 ^ 63 + 1) ∧
    (start_boot_logic (fun _ c => c) 1 none
      { quiet_platform with
        partition_table_status := 2 ^ 63 + 1,
        reset_source := RESET_KERNEL_WATCHDOG, wdt_counter := 1 }).2.calls =
      [.hook_bootlogic_begin, .check_partition_table] ∧
    (start_boot_logic (fun _ c => c) 1 none
      { quiet_platform with
        partition_table_status := 2 ^ 63 + 1,
        reset_source := RESET_KERNEL_WATCHDOG, wdt_counter := 1 }).2.wdt_counter = 1 :=
  ⟨congrArg Prod.fst (start_boot_logic_partition_error (fun _ c => c) 1 none
      { quiet_platform with
        partition_table_status := 2 ^ 63 + 1,
        reset_source := RESET_KERNEL_WATCHDOG, wdt_counter := 1 } (by decide)).1,
   (start_boot_logic_partition_error (fun _ c => c) 1 none
      { quiet_platform with
        partition_table_status := 2 ^ 63 + 1,
        reset_source := RESET_KERNEL_WATCHDOG, wdt_counter := 1 } (by decide)).2.1,
   (start_boot_logic_partition_error (fun _ c => c) 1 none
      { quiet_platform with
        partition_table_status := 2 ^ 63 + 1,
        reset_source := RESET_KERNEL_WATCHDOG, wdt_counter := 1 } (by decide)).2.2.1⟩

/-- The resolver calls, as they appear in a run of `start_boot_logic`: they
follow the begin hook, the partition table check and the flow type read. -/
theorem resolver_entry_calls (s : platform) :
    ∃ rnew, (target_from_inputs s.flow_type (resolver_entry s)).2.calls =
        s.calls ++ ([op_call.hook_bootlogic_begin, op_call.check_partition_table,
          op_call.read_flow_type] ++ rnew) ∧
      ∀ c ∈ rnew, resolver_call c = true := by
  obtain ⟨rnew, hr, hall⟩ := target_from_inputs_calls s.flow_type (resolver_entry s)
  refine ⟨rnew, ?_, hall⟩
  rw [hr]
  simp [resolver_entry, platform.log]

/-- C19: when the partition table check succeeds and `populate_indicators`
returns an error status, neither `save_target_mode` nor `load_target` is
invoked and the saved target is left as it was; `start_boot_logic` returns that
status once `populate_indicators` has been reached, that is, unless
`do_cold_off` was invoked and kept control. -/
theorem start_boot_logic_indicators_error
    (append_strings : cmdline_t → cmdline_t → cmdline_t) (fuel : Nat)
    (cmdline : cmdline_t) (s : platform)
    (hpt : EFI_ERROR s.partition_table_status = false)
    (hind : EFI_ERROR s.indicators_status = true) :
    (∃ new, (start_boot_logic append_strings (fuel + 1) cmdline s).2.calls = s.calls ++ new ∧
      (∀ t, op_call.save_target_mode t ∉ new) ∧
      (∀ t c, op_call.load_target t c ∉ new) ∧
      op_call.hook_bootlogic_end ∉ new ∧
      ((resolved_target s = TARGET_COLD_OFF → s.cold_off_returns = true) →
        op_call.populate_indicators ∈ new)) ∧
    (start_boot_logic append_strings (fuel + 1) cmdline s).2.saved_target_mode =
      s.saved_target_mode ∧
    ((resolved_target s = TARGET_COLD_OFF → s.cold_off_returns = true) →
      (start_boot_logic append_strings (fuel + 1) cmdline s).1 =
        boot_result.returned s.indicators_status) := by
  obtain ⟨hres, hcalls, hsaved⟩ :=
    start_boot_logic_run append_strings fuel cmdline s hpt
  obtain ⟨rnew, hr, hall⟩ := resolver_entry_calls s
  have hn1 : ∀ t, op_call.save_target_mode t ∉ rnew := fun t h => by
    simpa [resolver_call] using hall _ h
  have hn2 : ∀ t c, op_call.load_target t c ∉ rnew := fun t c h => by
    simpa [resolver_call] using hall _ h
  have hn3 : op_call.hook_bootlogic_end ∉ rnew := fun h => by
    simpa [resolver_call] using hall _ h
  refine ⟨⟨_, by rw [hcalls, hr, List.append_assoc], ?_, ?_, ?_, ?_⟩, ?_, ?_⟩
  · intro t
    by_cases h1 : resolved_target s = TARGET_COLD_OFF <;>
      by_cases h2 : s.cold_off_returns = false <;> simp [hind, h1, h2, hn1]
  · intro t c
    by_cases h1 : resolved_target s = TARGET_COLD_OFF <;>
      by_cases h2 : s.cold_off_returns = false <;> simp [hind, h1, h2, hn2]
  · by_cases h1 : resolved_target s = TARGET_COLD_OFF <;>
      by_cases h2 : s.cold_off_returns = false <;> simp [hind, h1, h2, hn3]
  · intro hoff
    by_cases h1 : resolved_target s = TARGET_COLD_OFF
    · simp [hind, h1, hoff h1]
    · simp [hind, h1]
  · rw [hsaved]; simp [hind]
  · intro hoff
    rw [hres]
    by_cases h1 : resolved_target s = TARGET_COLD_OFF
    · simp [hind, h1, hoff h1]
    · simp [hind, h1]

/-- Witness of C19: `populate_indicators` fails with `EFI_LOAD_ERROR` after a
power button wake. -/
theorem start_boot_logic_indicators_error_witness :
    (start_boot_logic (fun _ c => c) (0 + 1) none
      { quiet_platform with
        wake_source := WAKE_POWER_BUTTON_PRESSED,
        indicators_status := 2 ^ 63 + 1 }).2.saved_target_mode = none ∧
    (start_boot_logic (fun _ c => c) (0 + 1) none
      { quiet_platform with
        wake_source := WAKE_POWER_BUTTON_PRESSED,
        indicators_status := 2 ^ 63 + 1 }).1 = boot_result.returned (2 ^ 63 + 1) :=
  ⟨(start_boot_logic_indicators_error (fun _ c => c) 0 none
      { quiet_platform with
        wake_source := WAKE_POWER_BUTTON_PRESSED,
        indicators_status := 2 ^ 63 + 1 } (by decide) (by decide)).2.1,
   (start_boot_logic_indicators_error (fun _ c => c) 0 none
      { quiet_platform with
        wake_source := WAKE_POWER_BUTTON_PRESSED,
        indicators_status := 2 ^ 63 + 1 } (by decide) (by decide)).2.2 (by decide)⟩

/-- C20: when the partition table check and `populate_indicators` succeed
(`populate_indicators` being reached, that is, `do_cold_off` not keeping
control), then whatever status `save_target_mode` returns, the run ends with
the calls `save_target_mode(t)`, `get_extra_cmdline`, `hook_bootlogic_end`,
`load_target(t, merged command line)` for one and the same target `t`, no
earlier call is a `save_target_mode` or a `load_target`, and the result of
`start_boot_logic` is what `load_target` returns (or no return when
`load_target` keeps control). -/
theorem start_boot_logic_save_soft_failure
    (append_strings : cmdline_t → cmdline_t → cmdline_t) (fuel : Nat)
    (cmdline : cmdline_t) (s : platform)
    (hpt : EFI_ERROR s.partition_table_status = false)
    (hind : EFI_ERROR s.indicators_status = false)
    (hoff : resolved_target s = TARGET_COLD_OFF → s.cold_off_returns = true) :
    (∃ earlier, (start_boot_logic append_strings (fuel + 1) cmdline s).2.calls =
        s.calls ++ earlier ++
          [op_call.save_target_mode (resolved_target s), op_call.get_extra_cmdline,
            op_call.hook_bootlogic_end,
            op_call.load_target (resolved_target s)
              (append_strings s.extra_cmdline cmdline)] ∧
      (∀ t, op_call.save_target_mode t ∉ earlier) ∧
      (∀ t c, op_call.load_target t c ∉ earlier)) ∧
    (start_boot_logic append_strings (fuel + 1) cmdline s).1 =
      (match s.load_status (resolved_target s) (append_strings s.extra_cmdline cmdline) with
        | some ret => boot_result.returned ret
        | none => boot_result.no_return) ∧
    (start_boot_logic append_strings (fuel + 1) cmdline s).2.saved_target_mode =
      (if EFI_ERROR (s.save_status (resolved_target s)) = true then s.saved_target_mode
       else some (resolved_target s)) := by
  obtain ⟨hres, hcalls, hsaved⟩ :=
    start_boot_logic_run append_strings fuel cmdline s hpt
  obtain ⟨rnew, hr, hall⟩ := resolver_entry_calls s
  have hn1 : ∀ t, op_call.save_target_mode t ∉ rnew := fun t h => by
    simpa [resolver_call] using hall _ h
  have hn2 : ∀ t c, op_call.load_target t c ∉ rnew := fun t c h => by
    simpa [resolver_call] using hall _ h
  have hgo : ¬ (resolved_target s = TARGET_COLD_OFF ∧ s.cold_off_returns = false) :=
    fun h => by simp [hoff h.1] at h
  refine ⟨⟨[op_call.hook_bootlogic_begin, op_call.check_partition_table,
      op_call.read_flow_type] ++ rnew ++
      (if resolved_target s = TARGET_COLD_OFF then [op_call.do_cold_off] else []) ++
      [op_call.display_splash, op_call.populate_indicators], ?_, ?_, ?_⟩, ?_, ?_⟩
  · rw [hcalls, hr, if_neg hgo]
    simp [hind]
  · intro t
    by_cases h1 : resolved_target s = TARGET_COLD_OFF <;> simp [h1, hn1]
  · intro t c
    by_cases h1 : resolved_target s = TARGET_COLD_OFF <;> simp [h1, hn2]
  · rw [hres, if_neg hgo]; simp [hind]
  · rw [hsaved]; simp [hgo, hind]

/-- Witness of C20: `save_target_mode` fails with `EFI_LOAD_ERROR` and
`load_target` returns `EFI_INVALID_PARAMETER`, which is what `start_boot_logic`
returns. -/
theorem start_boot_logic_save_soft_failure_witness :
    (start_boot_logic (fun _ c => c) (0 + 1) none
      { quiet_platform with
        wake_source := WAKE_POWER_BUTTON_PRESSED,
        save_status := fun _ => 2 ^ 63 + 1,
        load_status := fun _ _ => some (2 ^ 63 + 2) }).1 =
      boot_result.returned (2 ^ 63 + 2) :=
  (start_boot_logic_save_soft_failure (fun _ c => c) 0 none
      { quiet_platform with
        wake_source := WAKE_POWER_BUTTON_PRESSED,
        save_status := fun _ => 2 ^ 63 + 1,
        load_status := fun _ _ => some (2 ^ 63 + 2) }
      (by decide) (by decide) (by decide)).2.1

/-- With the battery ok and a wake source that is neither not-applicable nor
error, the resolver is the wake chain run after its two reads. -/
theorem target_from_inputs_eq_off (flow_type : flow_types) (s : platform)
    (hbatt : s.battery_ok = true)
    (hna : s.wake_source ≠ WAKE_NOT_APPLICABLE) (herr : s.wake_source ≠ WAKE_ERROR) :
    target_from_inputs flow_type s =
      target_from_off s.wake_source ((s.log .is_battery_ok).log .get_wake_source) := by
  simp [target_from_inputs, loader_ops.is_battery_ok, loader_ops.get_wake_source,
    platform.log, hbatt, hna, herr]

/-- C21: with the partition table check and the indicators succeeding, battery
ok, wake source power-button-pressed, combo key not held and battery level
boot-os, whatever the flow type: the resolver returns boot; the validation loop
accepts boot at its first test and the watchdog rule is not run, so
`fallback_target` is not applied; and the calls of the run are, in order, the
ones listed, with one `save_target_mode(boot)` followed by one
`load_target(boot, command line of get_cmdline)`. -/
theorem start_boot_logic_power_key_boot
    (append_strings : cmdline_t → cmdline_t → cmdline_t) (fuel : Nat)
    (cmdline : cmdline_t) (s : platform)
    (hpt : EFI_ERROR s.partition_table_status = false)
    (hind : EFI_ERROR s.indicators_status = false)
    (hbatt : s.battery_ok = true)
    (hws : s.wake_source = WAKE_POWER_BUTTON_PRESSED)
    (hcombo : s.combo_fastboot = false)
    (hlvl : s.battery_level = BATT_BOOT_OS) :
    (target_from_inputs s.flow_type (resolver_entry s)).1 = TARGET_BOOT ∧
    check_target_loop (fuel + 1) TARGET_BOOT = some TARGET_BOOT ∧
    (start_boot_logic append_strings (fuel + 1) cmdline s).2.calls =
      s.calls ++
        ([op_call.hook_bootlogic_begin, op_call.check_partition_table,
            op_call.read_flow_type, op_call.is_battery_ok, op_call.get_wake_source,
            op_call.get_shutdown_source] ++
          (if s.shutdown_source = SHTDWN_POWER_BUTTON_OVERRIDE
            then [op_call.set_rtc_alarm_charging 0, op_call.set_wdt_counter 0] else []) ++
          [op_call.combo_key, op_call.get_battery_level, op_call.display_splash,
            op_call.populate_indicators, op_call.save_target_mode TARGET_BOOT,
            op_call.get_extra_cmdline, op_call.hook_bootlogic_end,
            op_call.load_target TARGET_BOOT (get_cmdline append_strings cmdline s).1]) ∧
    (start_boot_logic append_strings (fuel + 1) cmdline s).1 =
      (match s.load_status TARGET_BOOT (get_cmdline append_strings cmdline s).1 with
        | some ret => boot_result.returned ret
        | none => boot_result.no_return) := by
  have hoff : target_from_inputs s.flow_type (resolver_entry s) =
      target_from_off WAKE_POWER_BUTTON_PRESSED
        (((resolver_entry s).log .is_battery_ok).log .get_wake_source) := by
    have h := target_from_inputs_eq_off s.flow_type (resolver_entry s) hbatt
      (by show s.wake_source ≠ _; rw [hws]; decide)
      (by show s.wake_source ≠ _; rw [hws]; decide)
    rw [h]
    show target_from_off s.wake_source _ = _
    rw [hws]
  have htgt : (target_from_inputs s.flow_type (resolver_entry s)).1 = TARGET_BOOT := by
    rw [hoff, target_from_off_target]
    simp [resolver_entry, platform.log, hcombo, hlvl]
  have hres : resolved_target s = TARGET_BOOT := by
    simp [resolved_target, htgt]
  obtain ⟨hr, hcalls, -⟩ := start_boot_logic_run append_strings fuel cmdline s hpt
  refine ⟨htgt, by simp [check_target_loop, check_target, EFI_SUCCESS], ?_, ?_⟩
  · rw [hcalls, hres, hoff, target_from_off_calls]
    by_cases hsd : s.shutdown_source = SHTDWN_POWER_BUTTON_OVERRIDE <;>
      simp [resolver_entry, platform.log, get_cmdline, loader_ops.get_extra_cmdline,
        hind, hcombo, hsd]
  · rw [hr, hres]
    rcases hld : s.load_status TARGET_BOOT (append_strings s.extra_cmdline cmdline) <;>
      simp [get_cmdline, loader_ops.get_extra_cmdline, hind, hld]

/-- Witness of C21: the power button is pressed on a platform at rest whose
`load_target` returns `EFI_LOAD_ERROR`, with flow type 7 and both command
lines present. -/
theorem start_boot_logic_power_key_boot_witness :
    (start_boot_logic sample_append_strings (0 + 1) (some "console=ttyS0")
      { quiet_platform with
        wake_source := WAKE_POWER_BUTTON_PRESSED, flow_type := 7,
        extra_cmdline := some "androidboot.x=1",
        load_status := fun _ _ => some (2 ^ 63 + 1) }).2.calls =
      [.hook_bootlogic_begin, .check_partition_table, .read_flow_type, .is_battery_ok,
        .get_wake_source, .get_shutdown_source, .combo_key, .get_battery_level,
        .display_splash, .populate_indicators, .save_target_mode TARGET_BOOT,
        .get_extra_cmdline, .hook_bootlogic_end,
        .load_target TARGET_BOOT (some "androidboot.x=1 console=ttyS0")] :=
  (start_boot_logic_power_key_boot sample_append_strings 0 (some "console=ttyS0")
      { quiet_platform with
        wake_source := WAKE_POWER_BUTTON_PRESSED, flow_type := 7,
        extra_cmdline := some "androidboot.x=1",
        load_status := fun _ _ => some (2 ^ 63 + 1) }
      (by decide) (by decide) rfl rfl rfl rfl).2.2.1

/-- C22 as stated fails: over an empty variable store whose firmware accepts
every delete and write and the sample name table, `save_target_mode(recovery)` succeeds and stores the name of
recovery in `LoaderEntryLast`, recovery has a name that reads back as recovery,
and the following resolver run with battery ok, wake source not-applicable and
reset source OS-initiated (or forced) returns unknown, not recovery. -/
theorem saved_target_not_resumed :
    (set_entry_last sample_target_to_name TARGET_RECOVERY empty_vars).1 = EFI_SUCCESS ∧
    (set_entry_last sample_target_to_name TARGET_RECOVERY empty_vars).2.vars
      last_target_mode_name = some "recovery" ∧
    sample_name_to_target (sample_target_to_name TARGET_RECOVERY).2 =
      (EFI_SUCCESS, TARGET_RECOVERY) ∧
    (target_from_inputs 0
      (x86_platform sample_name_to_target
        (set_entry_last sample_target_to_name TARGET_RECOVERY empty_vars).2
        { quiet_platform with reset_source := RESET_OS_INITIATED })).1 = TARGET_UNKNOWN ∧
    (target_from_inputs 0
      (x86_platform sample_name_to_target
        (set_entry_last sample_target_to_name TARGET_RECOVERY empty_vars).2
        { quiet_platform with reset_source := RESET_FORCED })).1 = TARGET_UNKNOWN := by
  decide

/-- With the battery ok, the wake source not-applicable and reset source
OS-initiated or forced, the resolver returns what `get_target_mode` answers. -/
theorem target_from_inputs_resume (flow_type : flow_types) (s : platform)
    (hbatt : s.battery_ok = true) (hwake : s.wake_source = WAKE_NOT_APPLICABLE)
    (hrs : s.reset_source = RESET_OS_INITIATED ∨ s.reset_source = RESET_FORCED) :
    (target_from_inputs flow_type s).1 = s.target_mode := by
  by_cases ht : s.target_mode = TARGET_UNKNOWN <;> rcases hrs with h | h <;>
    simp [target_from_inputs, target_from_reset, run_boot_case, boot_fw_update, boot_reset,
      boot_watchdog, loader_ops.is_battery_ok, loader_ops.get_wake_source,
      loader_ops.get_reset_source, loader_ops.get_target_mode, platform.log,
      hbatt, hwake, h, ht]

/-- A successful `set_entry_last` leaves the name of the target in
`LoaderEntryLast`; `LoaderEntryOneShot` is gone unless the firmware refused
its delete, in which case it is as it was. -/
theorem set_entry_last_vars (target_to_name : targets → EFI_STATUS × String)
    (t : targets) (st : uefi_vars)
    (hsave : EFI_ERROR (set_entry_last target_to_name t st).1 = false) :
    EFI_ERROR (target_to_name t).1 = false ∧
    (set_entry_last target_to_name t st).2.vars last_target_mode_name =
      some (target_to_name t).2 ∧
    (set_entry_last target_to_name t st).2.vars target_mode_name =
      (if EFI_ERROR (st.delete_status target_mode_name) then st.vars target_mode_name
       else none) := by
  have hne : target_mode_name ≠ last_target_mode_name := by decide
  rcases hn : target_to_name t with ⟨status, name⟩
  rcases hst : EFI_ERROR status <;>
    rcases hd : EFI_ERROR (st.delete_status target_mode_name) <;>
    rcases hw : EFI_ERROR (st.write_status last_target_mode_name) <;>
    rcases hv : st.vars target_mode_name <;>
    simp [set_entry_last, LibDeleteVariable, LibSetNVVariable, LibGetVariable, hn, hst, hd,
      hw, hv, hne] at hsave ⊢

/-- C22 (amended): with the x86 wiring over a UEFI variable store, a
successful `save_target_mode(t)` keeps the name of `t` in `LoaderEntryLast`,
which the resolver does not read, and leaves `LoaderEntryOneShot`, the
variable `get_target_mode` reads, absent, or as it was when the firmware
refused its delete (the delete status is ignored).  So a following resolver
run with battery ok, wake source not-applicable and reset source OS-initiated
or forced returns the one-shot target left by the save: unknown when the
variable was absent or deleted, and the one-shot target from before the save
when the delete was refused; in no case does the result depend on `t`. -/
theorem saved_target_clears_oneshot (target_to_name : targets → EFI_STATUS × String)
    (name_to_target : String → EFI_STATUS × targets) (flow_type : flow_types)
    (st : uefi_vars) (t : targets) (s : platform)
    (hsave : EFI_ERROR (set_entry_last target_to_name t st).1 = false)
    (hbatt : s.battery_ok = true) (hwake : s.wake_source = WAKE_NOT_APPLICABLE)
    (hrs : s.reset_source = RESET_OS_INITIATED ∨ s.reset_source = RESET_FORCED) :
    EFI_ERROR (target_to_name t).1 = false ∧
    (set_entry_last target_to_name t st).2.vars last_target_mode_name =
      some (target_to_name t).2 ∧
    (set_entry_last target_to_name t st).2.vars target_mode_name =
      (if EFI_ERROR (st.delete_status target_mode_name) then st.vars target_mode_name
       else none) ∧
    (target_from_inputs flow_type
      (x86_platform name_to_target (set_entry_last target_to_name t st).2 s)).1
        = (if EFI_ERROR (st.delete_status target_mode_name) then
            get_entry_oneshot name_to_target st
           else TARGET_UNKNOWN) := by
  obtain ⟨h1, h2, h3⟩ := set_entry_last_vars target_to_name t st hsave
  refine ⟨h1, h2, h3, ?_⟩
  rw [target_from_inputs_resume flow_type
    (x86_platform name_to_target (set_entry_last target_to_name t st).2 s) hbatt hwake hrs]
  show get_entry_oneshot name_to_target (set_entry_last target_to_name t st).2 = _
  unfold get_entry_oneshot LibGetVariable
  rw [h3]
  by_cases hd : EFI_ERROR (st.delete_status target_mode_name) = true
  · rw [if_pos hd, if_pos hd]
  · rw [if_neg hd, if_neg hd]

/-- Witness of C22 (amended): `save_target_mode(recovery)` followed by an
OS-initiated reset, over the empty store (the run returns unknown) and over a
store whose one-shot variable names fastboot and cannot be deleted (the save
succeeds and the run returns fastboot). -/
theorem saved_target_clears_oneshot_witness :
    (target_from_inputs 0
      (x86_platform sample_name_to_target
        (set_entry_last sample_target_to_name TARGET_RECOVERY empty_vars).2
        { quiet_platform with reset_source := RESET_OS_INITIATED })).1 = TARGET_UNKNOWN ∧
    (EFI_ERROR (set_entry_last sample_target_to_name TARGET_RECOVERY oneshot_kept_vars).1
        = false ∧
      (target_from_inputs 0
        (x86_platform sample_name_to_target
          (set_entry_last sample_target_to_name TARGET_RECOVERY oneshot_kept_vars).2
          { quiet_platform with reset_source := RESET_OS_INITIATED })).1
        = TARGET_FASTBOOT) :=
  ⟨(saved_target_clears_oneshot sample_target_to_name sample_name_to_target 0 empty_vars
      TARGET_RECOVERY { quiet_platform with reset_source := RESET_OS_INITIATED }
      (by decide) rfl rfl (Or.inl rfl)).2.2.2,
   by decide,
   (saved_target_clears_oneshot sample_target_to_name sample_name_to_target 0
      oneshot_kept_vars
      TARGET_RECOVERY { quiet_platform with reset_source := RESET_OS_INITIATED }
      (by decide) rfl rfl (Or.inl rfl)).2.2.2⟩

/-- C23: in a run of `start_boot_logic` that gets past the partition table
check, `do_cold_off` is invoked once when the resolved target (unknown replaced
by boot) is cold-off and not at all otherwise, and no `display_splash`,
`save_target_mode` or `load_target` call comes before it. -/
theorem start_boot_logic_cold_off
    (append_strings : cmdline_t → cmdline_t → cmdline_t) (fuel : Nat)
    (cmdline : cmdline_t) (s : platform)
    (hpt : EFI_ERROR s.partition_table_status = false) :
    ∃ before after,
      (start_boot_logic append_strings (fuel + 1) cmdline s).2.calls =
        s.calls ++ before ++
          (if resolved_target s = TARGET_COLD_OFF then [op_call.do_cold_off] else []) ++
          after ∧
      op_call.do_cold_off ∉ before ∧ op_call.do_cold_off ∉ after ∧
      op_call.display_splash ∉ before ∧
      (∀ t, op_call.save_target_mode t ∉ before) ∧
      (∀ t c, op_call.load_target t c ∉ before) := by
  obtain ⟨-, hcalls, -⟩ := start_boot_logic_run append_strings fuel cmdline s hpt
  obtain ⟨rnew, hr, hall⟩ := resolver_entry_calls s
  have hb : ∀ c, c ∈ [op_call.hook_bootlogic_begin, op_call.check_partition_table,
      op_call.read_flow_type] ++ rnew →
      c ≠ op_call.do_cold_off ∧ c ≠ op_call.display_splash ∧
      (∀ t, c ≠ op_call.save_target_mode t) ∧ (∀ t cl, c ≠ op_call.load_target t cl) := by
    intro c hc
    rcases List.mem_append.1 hc with h | h
    · simp only [List.mem_cons, List.mem_singleton, List.not_mem_nil, or_false] at h
      rcases h with rfl | rfl | rfl <;> simp
    · have := hall c h
      cases c <;> simp [resolver_call] at this ⊢
  refine ⟨[op_call.hook_bootlogic_begin, op_call.check_partition_table,
      op_call.read_flow_type] ++ rnew,
    (if resolved_target s = TARGET_COLD_OFF ∧ s.cold_off_returns = false then []
     else
      [op_call.display_splash, op_call.populate_indicators] ++
        (if EFI_ERROR s.indicators_status = true then []
         else
          [op_call.save_target_mode (resolved_target s), op_call.get_extra_cmdline,
            op_call.hook_bootlogic_end,
            op_call.load_target (resolved_target s)
              (append_strings s.extra_cmdline cmdline)])), ?_, ?_, ?_, ?_, ?_, ?_⟩
  · rw [hcalls, hr]
    simp only [List.append_assoc]
  · exact fun h => (hb _ h).1 rfl
  · by_cases h1 : resolved_target s = TARGET_COLD_OFF ∧ s.cold_off_returns = false <;>
      by_cases h2 : EFI_ERROR s.indicators_status = true <;> simp [h1, h2]
  · exact fun h => (hb _ h).2.1 rfl
  · exact fun t h => (hb _ h).2.2.1 t rfl
  · exact fun t c h => (hb _ h).2.2.2 t c rfl

/-- Witness of C23: the battery is not ok, so the resolved target is cold-off
and `do_cold_off` is the fifth call of the run. -/
theorem start_boot_logic_cold_off_witness :
    ∃ before after,
      (start_boot_logic sample_append_strings (0 + 1) none
        { quiet_platform with battery_ok := false }).2.calls =
        ({ quiet_platform with battery_ok := false } : platform).calls ++ before ++
          (if resolved_target { quiet_platform with battery_ok := false } = TARGET_COLD_OFF
            then [op_call.do_cold_off] else []) ++
          after ∧
      op_call.do_cold_off ∉ before ∧ op_call.do_cold_off ∉ after ∧
      op_call.display_splash ∉ before ∧
      (∀ t, op_call.save_target_mode t ∉ before) ∧
      (∀ t c, op_call.load_target t c ∉ before) :=
  start_boot_logic_cold_off sample_append_strings 0 none
    { quiet_platform with battery_ok := false } (by decide)

/-- C24: when the resolved target is cold-off and `do_cold_off` returns,
`start_boot_logic` goes on: with the partition table check and the indicators
succeeding the run ends with `do_cold_off`, `display_splash`,
`populate_indicators`, `save_target_mode(cold-off)`, `get_extra_cmdline`,
`hook_bootlogic_end`, `load_target(cold-off, merged command line)`; a
successful `save_target_mode` leaves cold-off as the saved target, and the
result is what `load_target` returns. -/
theorem start_boot_logic_after_cold_off
    (append_strings : cmdline_t → cmdline_t → cmdline_t) (fuel : Nat)
    (cmdline : cmdline_t) (s : platform)
    (hpt : EFI_ERROR s.partition_table_status = false)
    (hind : EFI_ERROR s.indicators_status = false)
    (hco : resolved_target s = TARGET_COLD_OFF)
    (hret : s.cold_off_returns = true) :
    (∃ before, (start_boot_logic append_strings (fuel + 1) cmdline s).2.calls =
      s.calls ++ before ++
        [op_call.do_cold_off, op_call.display_splash, op_call.populate_indicators,
          op_call.save_target_mode TARGET_COLD_OFF, op_call.get_extra_cmdline,
          op_call.hook_bootlogic_end,
          op_call.load_target TARGET_COLD_OFF (append_strings s.extra_cmdline cmdline)]) ∧
    (EFI_ERROR (s.save_status TARGET_COLD_OFF) = false →
      (start_boot_logic append_strings (fuel + 1) cmdline s).2.saved_target_mode =
        some TARGET_COLD_OFF) ∧
    (start_boot_logic append_strings (fuel + 1) cmdline s).1 =
      (match s.load_status TARGET_COLD_OFF (append_strings s.extra_cmdline cmdline) with
        | some ret => boot_result.returned ret
        | none => boot_result.no_return) := by
  obtain ⟨hres, hcalls, hsaved⟩ := start_boot_logic_run append_strings fuel cmdline s hpt
  obtain ⟨rnew, hr, -⟩ := resolver_entry_calls s
  refine ⟨⟨[op_call.hook_bootlogic_begin, op_call.check_partition_table,
      op_call.read_flow_type] ++ rnew, ?_⟩, ?_, ?_⟩
  · rw [hcalls, hr, hco]
    simp [hret, hind]
  · intro hsv
    rw [hsaved, hco]
    simp [hret, hind, hsv]
  · rw [hres, hco]
    rcases hld : s.load_status TARGET_COLD_OFF (append_strings s.extra_cmdline cmdline) <;>
      simp [hret, hind, hld]

/-- Witness of C24: the battery is not ok, `do_cold_off` returns and
`load_target` returns `EFI_LOAD_ERROR`; cold-off ends up as the saved
target. -/
theorem start_boot_logic_after_cold_off_witness :
    (start_boot_logic sample_append_strings (0 + 1) none
      { quiet_platform with
        battery_ok := false,
        load_status := fun _ _ => some (2 ^ 63 + 1) }).2.saved_target_mode =
      some TARGET_COLD_OFF ∧
    (start_boot_logic sample_append_strings (0 + 1) none
      { quiet_platform with
        battery_ok := false,
        load_status := fun _ _ => some (2 ^ 63 + 1) }).1 =
      boot_result.returned (2 ^ 63 + 1) :=
  ⟨(start_boot_logic_after_cold_off sample_append_strings 0 none
      { quiet_platform with
        battery_ok := false,
        load_status := fun _ _ => some (2 ^ 63 + 1) }
      (by decide) (by decide) (by decide) rfl).2.1 (by decide),
   (start_boot_logic_after_cold_off sample_append_strings 0 none
      { quiet_platform with
        battery_ok := false,
        load_status := fun _ _ => some (2 ^ 63 + 1) }
      (by decide) (by decide) (by decide) rfl).2.2⟩

/-- The counter values written during a resolver run: `forced_shutdown` and the
fallback branch of `boot_watchdog` write 0, and the other branch of
`boot_watchdog` writes the incremented C `int` counter, which is below 3. -/
theorem target_from_inputs_writes (flow_type : flow_types) (s : platform) :
    ∃ new, (target_from_inputs flow_type s).2.calls = s.calls ++ new ∧
      ∀ n, op_call.set_wdt_counter n ∈ new →
        n = 0 ∨ (n = int_wrap (s.wdt_counter + 1) ∧ int_wrap (s.wdt_counter + 1) < 3) := by
  by_cases hb : s.battery_ok = true
  swap
  · exact ⟨[.is_battery_ok], by
      simp [target_from_inputs, loader_ops.is_battery_ok, platform.log, hb], by simp⟩
  by_cases he : s.wake_source = WAKE_ERROR
  · exact ⟨[.is_battery_ok, .get_wake_source], by
      simp [target_from_inputs, loader_ops.is_battery_ok, loader_ops.get_wake_source,
        platform.log, hb, he], by simp⟩
  by_cases hna : s.wake_source = WAKE_NOT_APPLICABLE
  · by_cases hre : s.reset_source = RESET_ERROR
    · exact ⟨[.is_battery_ok, .get_wake_source, .get_reset_source], by
        simp [target_from_inputs, loader_ops.is_battery_ok, loader_ops.get_wake_source,
          loader_ops.get_reset_source, platform.log, hb, hna, hre], by simp⟩
    · have : target_from_inputs flow_type s = target_from_reset
          (if s.reset_source = RESET_NOT_APPLICABLE then RESET_OS_INITIATED
            else s.reset_source)
          (((s.log .is_battery_ok).log .get_wake_source).log .get_reset_source) := by
        simp [target_from_inputs, loader_ops.is_battery_ok, loader_ops.get_wake_source,
          loader_ops.get_reset_source, platform.log, hb, hna, hre]
      rw [this, target_from_reset_calls_eq]
      refine ⟨_, by simp only [platform.log, List.append_assoc]; rfl, ?_⟩
      intro n hn
      by_cases h3 : int_wrap (s.wdt_counter + 1) ≥ 3 <;>
        rcases hrs : s.reset_source <;>
        simp [platform.log, watchdog_class, hrs, h3] at hn ⊢ <;> omega
  · rw [target_from_inputs_eq_off flow_type s hb hna he, target_from_off_calls]
    refine ⟨_, by simp only [platform.log, List.append_assoc]; rfl, ?_⟩
    intro n hn
    by_cases h1 : s.shutdown_source = SHTDWN_POWER_BUTTON_OVERRIDE <;>
      by_cases h2 : s.combo_fastboot = true ∨ s.wake_source = WAKE_POWER_BUTTON_PRESSED <;>
      simp [platform.log, h1, h2] at hn <;> exact Or.inl hn

/-- C25: a resolver run that starts with the stored counter in the range 0..2
ends with the stored counter in the range 0..2; and, from any stored counter,
no call `set_wdt_counter(n)` of the run has `n ≥ 3` (nor, when the stored
counter is in the range 0..2, `n < 0`). -/
theorem target_from_inputs_counter_range (flow_type : flow_types) (s : platform) :
    (0 ≤ s.wdt_counter → s.wdt_counter ≤ 2 →
      0 ≤ (target_from_inputs flow_type s).2.wdt_counter ∧
      (target_from_inputs flow_type s).2.wdt_counter ≤ 2) ∧
    (∃ new, (target_from_inputs flow_type s).2.calls = s.calls ++ new ∧
      ∀ n, op_call.set_wdt_counter n ∈ new →
        n < 3 ∧ (0 ≤ s.wdt_counter → s.wdt_counter ≤ 2 → 0 ≤ n)) := by
  constructor
  · intro h0 h2
    rw [target_from_inputs_wdt_counter,
      int_wrap_of_int _ (by unfold INT_MIN; omega) (by unfold INT_MAX; omega)]
    split_ifs <;> omega
  · obtain ⟨new, hnew, hw⟩ := target_from_inputs_writes flow_type s
    refine ⟨new, hnew, fun n hn => ?_⟩
    rcases hw n hn with h | ⟨h, h3⟩
    · subst h; exact ⟨by decide, fun _ _ => le_refl _⟩
    · refine ⟨by omega, fun h0 h2 => ?_⟩
      rw [h, int_wrap_of_int _ (by unfold INT_MIN; omega) (by unfold INT_MAX; omega)]
      omega

/-- Witness of C25: an EC watchdog reset from counter 2 leaves counter 0, and
one from counter 1 leaves counter 2. -/
theorem target_from_inputs_counter_range_witness :
    (0 ≤ (target_from_inputs 0
        { quiet_platform with
          reset_source := RESET_EC_WATCHDOG, wdt_counter := 2 }).2.wdt_counter ∧
      (target_from_inputs 0
        { quiet_platform with
          reset_source := RESET_EC_WATCHDOG, wdt_counter := 2 }).2.wdt_counter ≤ 2) ∧
    (0 ≤ (target_from_inputs 0
        { quiet_platform with
          reset_source := RESET_EC_WATCHDOG, wdt_counter := 1 }).2.wdt_counter ∧
      (target_from_inputs 0
        { quiet_platform with
          reset_source := RESET_EC_WATCHDOG, wdt_counter := 1 }).2.wdt_counter ≤ 2) :=
  ⟨(target_from_inputs_counter_range 0
      { quiet_platform with reset_source := RESET_EC_WATCHDOG, wdt_counter := 2 }).1
      (by decide) (by decide),
   (target_from_inputs_counter_range 0
      { quiet_platform with reset_source := RESET_EC_WATCHDOG, wdt_counter := 1 }).1
      (by decide) (by decide)⟩

/-- C26: when `target_from_inputs` leaves through an early exit (battery not
ok, wake source error, or reset source error with the wake source
not-applicable) it has made nothing but reads: the platform is as it was but
for the call list, so the counter and the RTC-alarm-charging flag keep their
values whatever the shutdown source is, and `get_shutdown_source` is not even
called. -/
theorem target_from_inputs_early_exit (flow_type : flow_types) (s : platform)
    (h : s.battery_ok = false ∨ s.wake_source = WAKE_ERROR ∨
      (s.wake_source = WAKE_NOT_APPLICABLE ∧ s.reset_source = RESET_ERROR)) :
    (target_from_inputs flow_type s).2 =
      { s with calls := (target_from_inputs flow_type s).2.calls } ∧
    (target_from_inputs flow_type s).2.wdt_counter = s.wdt_counter ∧
    (target_from_inputs flow_type s).2.rtc_alarm_charging = s.rtc_alarm_charging ∧
    ((target_from_inputs flow_type s).2.calls = s.calls ++ [.is_battery_ok] ∨
      (target_from_inputs flow_type s).2.calls =
        s.calls ++ [.is_battery_ok, .get_wake_source] ∨
      (target_from_inputs flow_type s).2.calls =
        s.calls ++ [.is_battery_ok, .get_wake_source, .get_reset_source]) ∧
    (target_from_inputs flow_type s).1 =
      (if s.battery_ok = false then TARGET_COLD_OFF else TARGET_BOOT) := by
  by_cases hb : s.battery_ok = true
  swap
  · simp [target_from_inputs, loader_ops.is_battery_ok, platform.log, hb]
  by_cases he : s.wake_source = WAKE_ERROR
  · simp [target_from_inputs, loader_ops.is_battery_ok, loader_ops.get_wake_source,
      platform.log, hb, he]
  rcases h with h | h | ⟨hna, hre⟩
  · simp [hb] at h
  · exact absurd h he
  · simp [target_from_inputs, loader_ops.is_battery_ok, loader_ops.get_wake_source,
      loader_ops.get_reset_source, platform.log, hb, hna, hre]

/-- Witness of C26: the three early exits after a power-button override
shutdown, with counter 2 and RTC-alarm-charging enabled. -/
theorem target_from_inputs_early_exit_witness :
    ((target_from_inputs 0
        { quiet_platform with
          battery_ok := false, shutdown_source := SHTDWN_POWER_BUTTON_OVERRIDE,
          wdt_counter := 2, rtc_alarm_charging := 1 }).2.wdt_counter = 2 ∧
      (target_from_inputs 0
        { quiet_platform with
          battery_ok := false, shutdown_source := SHTDWN_POWER_BUTTON_OVERRIDE,
          wdt_counter := 2, rtc_alarm_charging := 1 }).2.rtc_alarm_charging = 1) ∧
    ((target_from_inputs 0
        { quiet_platform with
          wake_source := WAKE_ERROR, shutdown_source := SHTDWN_POWER_BUTTON_OVERRIDE,
          wdt_counter := 2, rtc_alarm_charging := 1 }).2.wdt_counter = 2 ∧
      (target_from_inputs 0
        { quiet_platform with
          wake_source := WAKE_ERROR, shutdown_source := SHTDWN_POWER_BUTTON_OVERRIDE,
          wdt_counter := 2, rtc_alarm_charging := 1 }).2.rtc_alarm_charging = 1) ∧
    ((target_from_inputs 0
        { quiet_platform with
          reset_source := RESET_ERROR, shutdown_source := SHTDWN_POWER_BUTTON_OVERRIDE,
          wdt_counter := 2, rtc_alarm_charging := 1 }).2.wdt_counter = 2 ∧
      (target_from_inputs 0
        { quiet_platform with
          reset_source := RESET_ERROR, shutdown_source := SHTDWN_POWER_BUTTON_OVERRIDE,
          wdt_counter := 2, rtc_alarm_charging := 1 }).2.rtc_alarm_charging = 1) :=
  ⟨⟨(target_from_inputs_early_exit 0
        { quiet_platform with
          battery_ok := false, shutdown_source := SHTDWN_POWER_BUTTON_OVERRIDE,
          wdt_counter := 2, rtc_alarm_charging := 1 } (Or.inl rfl)).2.1,
    (target_from_inputs_early_exit 0
        { quiet_platform with
          battery_ok := false, shutdown_source := SHTDWN_POWER_BUTTON_OVERRIDE,
          wdt_counter := 2, rtc_alarm_charging := 1 } (Or.inl rfl)).2.2.1⟩,
   ⟨(target_from_inputs_early_exit 0
        { quiet_platform with
          wake_source := WAKE_ERROR, shutdown_source := SHTDWN_POWER_BUTTON_OVERRIDE,
          wdt_counter := 2, rtc_alarm_charging := 1 } (Or.inr (Or.inl rfl))).2.1,
    (target_from_inputs_early_exit 0
        { quiet_platform with
          wake_source := WAKE_ERROR, shutdown_source := SHTDWN_POWER_BUTTON_OVERRIDE,
          wdt_counter := 2, rtc_alarm_charging := 1 } (Or.inr (Or.inl rfl))).2.2.1⟩,
   ⟨(target_from_inputs_early_exit 0
        { quiet_platform with
          reset_source := RESET_ERROR, shutdown_source := SHTDWN_POWER_BUTTON_OVERRIDE,
          wdt_counter := 2, rtc_alarm_charging := 1 } (Or.inr (Or.inr ⟨rfl, rfl⟩))).2.1,
    (target_from_inputs_early_exit 0
        { quiet_platform with
          reset_source := RESET_ERROR, shutdown_source := SHTDWN_POWER_BUTTON_OVERRIDE,
          wdt_counter := 2, rtc_alarm_charging := 1 } (Or.inr (Or.inr ⟨rfl, rfl⟩))).2.2.1⟩⟩

end Efilinux
